import Mathlib

/-!
Verification of the planck.js constraint-and-collision core.

The development shallowly embeds the narrow-phase circle collision routine
and the distance / revolute / pulley joint solver methods over the rational
numbers.  The source computes with IEEE doubles; here every numeric value is
a rational, and the transcendental primitives the source calls (`Math.cos`,
`Math.sin`, `Math.sqrt`) are threaded through as an explicit function
parameter (`MathFns`), so every definition stays computable and the theorems
hold for every interpretation of those primitives.  Tuning constants
(`Settings`) are likewise threaded explicitly, matching the spec's direction
to model them as a configuration value.
-/

/-- Modelled from the spec: the transcendental math primitives
(`Math.cos`, `Math.sin`, `Math.sqrt`) and the tiny comparison constant
`Math.EPSILON` used by the source's math layer, which is an external
math-primitive collaborator ("Math primitives ... foundation, assumed
available").  They are threaded as explicit parameters. -/
structure MathFns where
  cosf : ℚ → ℚ
  sinf : ℚ → ℚ
  sqrtf : ℚ → ℚ
  epsilon : ℚ
  piv : ℚ

/-- Modelled from the spec: the "global mutable tuning constants (slop,
iteration counts, etc.)" of `Settings`, restricted to the fields the
verified routines read; modelled "as a single immutable configuration value
threaded explicitly into every solver/collision call". -/
structure Settings where
  linearSlop : ℚ
  angularSlop : ℚ
  maxLinearCorrection : ℚ
  maxAngularCorrection : ℚ
deriving DecidableEq

/-- Modelled from the spec: the solver time-step configuration (`dt`,
`dtRatio = dt/prevDt`, `warmStarting`) handed to every
`initVelocityConstraints`/`solveVelocityConstraints` call. -/
structure TimeStep where
  dt : ℚ
  dtRatio : ℚ
  warmStarting : Bool
deriving DecidableEq

/-- Modelled from the spec: `Math.clamp(num, min, max)` from the source's
common math module: returns `min` below the range, `max` above it, the
number itself inside it. -/
def MathClamp (num lo hi : ℚ) : ℚ :=
  if num < lo then lo else if num > hi then hi else num

/-- Modelled from the spec: the 2D vector math primitive (`Vec2`). -/
structure Vec2 where
  x : ℚ
  y : ℚ
deriving DecidableEq

namespace Vec2

/-- `Vec2.zero()` -/
def zeroV : Vec2 := ⟨0, 0⟩

/-- `Vec2.add(v, w)` -/
def add (v w : Vec2) : Vec2 := ⟨v.x + w.x, v.y + w.y⟩

/-- `Vec2.sub(v, w)` -/
def sub (v w : Vec2) : Vec2 := ⟨v.x - w.x, v.y - w.y⟩

/-- `Vec2.neg(v)` -/
def neg (v : Vec2) : Vec2 := ⟨-v.x, -v.y⟩

/-- `Vec2.mul(a, v)` — scalar times vector. -/
def mul (a : ℚ) (v : Vec2) : Vec2 := ⟨a * v.x, a * v.y⟩

/-- `Vec2.dot(v, w)` -/
def dot (v w : Vec2) : ℚ := v.x * w.x + v.y * w.y

/-- `Vec2.cross(v, w)` for two vectors — the scalar 2D cross product. -/
def cross (v w : Vec2) : ℚ := v.x * w.y - v.y * w.x

/-- `Vec2.cross(w, v)` for a scalar and a vector:
`w k x (vx i + vy j) = w * (-vy i + vx j)`. -/
def crossSV (w : ℚ) (v : Vec2) : Vec2 := ⟨-w * v.y, w * v.x⟩

/-- `v.addMul(a, w)` — `v + a * w`. -/
def addMul (v : Vec2) (a : ℚ) (w : Vec2) : Vec2 := add v (mul a w)

/-- `v.subMul(a, w)` — `v - a * w`. -/
def subMul (v : Vec2) (a : ℚ) (w : Vec2) : Vec2 := sub v (mul a w)

/-- `v.addCombine(a, w, b, u)` — `v + a * w + b * u`. -/
def addCombine (v : Vec2) (a : ℚ) (w : Vec2) (b : ℚ) (u : Vec2) : Vec2 :=
  add v (add (mul a w) (mul b u))

/-- `v.subCombine(a, w, b, u)` — `v - a * w - b * u`. -/
def subCombine (v : Vec2) (a : ℚ) (w : Vec2) (b : ℚ) (u : Vec2) : Vec2 :=
  sub v (add (mul a w) (mul b u))

/-- `Vec2.combine(a, v, b, w)` — `a * v + b * w`. -/
def combine (a : ℚ) (v : Vec2) (b : ℚ) (w : Vec2) : Vec2 :=
  add (mul a v) (mul b w)

/-- `v.lengthSquared()` -/
def lengthSquared (v : Vec2) : ℚ := v.x * v.x + v.y * v.y

/-- `v.length()` — via the threaded square-root primitive. -/
def len (F : MathFns) (v : Vec2) : ℚ := F.sqrtf (lengthSquared v)

/-- `Vec2.distanceSquared(v, w)` -/
def distanceSquared (v w : Vec2) : ℚ :=
  (v.x - w.x) * (v.x - w.x) + (v.y - w.y) * (v.y - w.y)

/-- `Vec2.distance(v, w)` -/
def distance (F : MathFns) (v w : Vec2) : ℚ := F.sqrtf (distanceSquared v w)

/-- `v.normalize()` — returns the pair (returned length, updated vector):
if the length is below `Math.EPSILON` it returns 0 and leaves the vector
unchanged, otherwise it returns the length and scales the vector to unit
length. -/
def normalizeWithLen (F : MathFns) (v : Vec2) : ℚ × Vec2 :=
  let length := len F v
  if length < F.epsilon then (0, v)
  else (length, mul (1 / length) v)

end Vec2

/-- Modelled from the spec: the 3D vector math primitive (`Vec3`), used by
the revolute joint's accumulated impulse. -/
structure Vec3 where
  x : ℚ
  y : ℚ
  z : ℚ
deriving DecidableEq

namespace Vec3

def zeroV : Vec3 := ⟨0, 0, 0⟩

def add (v w : Vec3) : Vec3 := ⟨v.x + w.x, v.y + w.y, v.z + w.z⟩

def neg (v : Vec3) : Vec3 := ⟨-v.x, -v.y, -v.z⟩

/-- `v.mul(a)` — scalar scaling of all three components. -/
def mul (a : ℚ) (v : Vec3) : Vec3 := ⟨a * v.x, a * v.y, a * v.z⟩

def dot (v w : Vec3) : ℚ := v.x * w.x + v.y * w.y + v.z * w.z

def cross (v w : Vec3) : Vec3 :=
  ⟨v.y * w.z - v.z * w.y, v.z * w.x - v.x * w.z, v.x * w.y - v.y * w.x⟩

end Vec3

/-- Modelled from the spec: the rotation math primitive — "rotation
(cosine/sine pair)". -/
structure Rot where
  s : ℚ
  c : ℚ
deriving DecidableEq

namespace Rot

/-- `Rot.neo(angle)` — builds the cosine/sine pair from an angle using the
threaded trigonometric primitives. -/
def neo (F : MathFns) (angle : ℚ) : Rot := ⟨F.sinf angle, F.cosf angle⟩

/-- `Rot.mulVec2(q, v)` — rotate a vector. -/
def mulVec2 (q : Rot) (v : Vec2) : Vec2 :=
  ⟨q.c * v.x - q.s * v.y, q.s * v.x + q.c * v.y⟩

/-- `Rot.mulTVec2(q, v)` — inverse-rotate a vector. -/
def mulTVec2 (q : Rot) (v : Vec2) : Vec2 :=
  ⟨q.c * v.x + q.s * v.y, -q.s * v.x + q.c * v.y⟩

/-- `Rot.mulSub(q, v, w)` — rotate the difference `v - w`. -/
def mulSub (q : Rot) (v w : Vec2) : Vec2 := mulVec2 q (Vec2.sub v w)

end Rot

/-- Modelled from the spec: the transform math primitive — "position +
rotation (cosine/sine pair), applied to map local to world". -/
structure Transform where
  p : Vec2
  q : Rot
deriving DecidableEq

namespace Transform

/-- `Transform.mulVec2(xf, v)` — map a local point to world space. -/
def mulVec2 (xf : Transform) (v : Vec2) : Vec2 :=
  Vec2.add (Rot.mulVec2 xf.q v) xf.p

/-- `Transform.mulTVec2(xf, v)` — map a world point to local space. -/
def mulTVec2 (xf : Transform) (v : Vec2) : Vec2 :=
  Rot.mulTVec2 xf.q (Vec2.sub v xf.p)

end Transform

/-- Modelled from the spec: the 2x2 matrix math primitive (`Mat22`), stored
by columns `ex`, `ey`. -/
structure Mat22 where
  ex : Vec2
  ey : Vec2
deriving DecidableEq

namespace Mat22

/-- `m.solve(v)` — solve `m * x = v` by Cramer's rule; a singular matrix
(zero determinant) yields the zero solution. -/
def solve (m : Mat22) (v : Vec2) : Vec2 :=
  let a := m.ex.x
  let b := m.ey.x
  let c := m.ex.y
  let d := m.ey.y
  let det0 := a * d - b * c
  let det := if det0 ≠ 0 then 1 / det0 else det0
  ⟨det * (d * v.x - b * v.y), det * (a * v.y - c * v.x)⟩

end Mat22

/-- Modelled from the spec: the 3x3 matrix math primitive (`Mat33`), stored
by columns `ex`, `ey`, `ez`. -/
structure Mat33 where
  ex : Vec3
  ey : Vec3
  ez : Vec3
deriving DecidableEq

namespace Mat33

/-- `m.solve33(v)` — solve the full 3x3 system `m * x = v` by Cramer's
rule; a singular matrix yields the zero solution. -/
def solve33 (m : Mat33) (v : Vec3) : Vec3 :=
  let det0 := Vec3.dot m.ex (Vec3.cross m.ey m.ez)
  let det := if det0 ≠ 0 then 1 / det0 else det0
  ⟨det * Vec3.dot v (Vec3.cross m.ey m.ez),
   det * Vec3.dot m.ex (Vec3.cross v m.ez),
   det * Vec3.dot m.ex (Vec3.cross m.ey v)⟩

/-- `m.solve22(v)` — solve the 2x2 system taken from the upper-left block
of the 3x3 matrix. -/
def solve22 (m : Mat33) (v : Vec2) : Vec2 :=
  let a11 := m.ex.x
  let a12 := m.ey.x
  let a21 := m.ex.y
  let a22 := m.ey.y
  let det0 := a11 * a22 - a12 * a21
  let det := if det0 ≠ 0 then 1 / det0 else det0
  ⟨det * (a22 * v.x - a12 * v.y), det * (a11 * v.y - a21 * v.x)⟩

end Mat33

/-! ### Narrow phase: circle-circle collision (`CollideCircles`) -/

/-- Manifold type tag, from `ManifoldType` (`e_circles | e_faceA | e_faceB`). -/
inductive ManifoldType where
  | e_circles
  | e_faceA
  | e_faceB
deriving DecidableEq

/-- Contact feature type, from `ContactFeatureType`. -/
inductive ContactFeatureType where
  | e_vertex
  | e_face
deriving DecidableEq

/-- Modelled from the spec: a manifold point's identity key — "feature
indices/types on each shape". -/
structure ContactFeature where
  indexA : ℕ
  typeA : ContactFeatureType
  indexB : ℕ
  typeB : ContactFeatureType
deriving DecidableEq

/-- Modelled from the spec: one manifold contact point — a local point,
persisted normal/tangent impulses and an identity key. -/
structure ManifoldPoint where
  localPoint : Vec2
  normalImpulse : ℚ
  tangentImpulse : ℚ
  id : ContactFeature
deriving DecidableEq

/-- Modelled from the spec: a contact manifold — type tag, local reference
point/normal and up to 2 contact points with a count.  Only point 0 is
relevant to the circle-circle routine. -/
structure Manifold where
  mtype : ManifoldType
  localPoint : Vec2
  localNormal : Vec2
  pointCount : ℕ
  point0 : ManifoldPoint
  point1 : ManifoldPoint
deriving DecidableEq

/-- A circle shape: local center `m_p` and radius `m_radius`. -/
structure CircleShape where
  m_p : Vec2
  m_radius : ℚ
deriving DecidableEq

/-- `CollideCircles(manifold, circleA, xfA, circleB, xfB)` from
`CollideCircle.js`: zero the point count; if the squared world-center
distance exceeds the squared radius sum, stop; otherwise emit one
`e_circles` point at circle B's local center with a vertex/vertex identity
key. -/
def CollideCircles (circleA : CircleShape) (xfA : Transform)
    (circleB : CircleShape) (xfB : Transform) (manifold : Manifold) : Manifold :=
  let m := { manifold with pointCount := 0 }
  let pA := Transform.mulVec2 xfA circleA.m_p
  let pB := Transform.mulVec2 xfB circleB.m_p
  let distSqr := Vec2.distanceSquared pB pA
  let rA := circleA.m_radius
  let rB := circleB.m_radius
  let radius := rA + rB
  if distSqr > radius * radius then m
  else
    { m with
      mtype := ManifoldType.e_circles
      localPoint := circleA.m_p
      localNormal := Vec2.zeroV
      pointCount := 1
      point0 := { m.point0 with
        localPoint := circleB.m_p
        id := ⟨0, ContactFeatureType.e_vertex, 0, ContactFeatureType.e_vertex⟩ } }

/-! ### Bodies and solver working state -/

/-- Modelled from the spec: the per-body state the solver and the joint
constructors read and write — the body transform (`m_xf`), the sweep's
local center-of-mass offset, inverse mass/inertia, the per-step working
copies of center position/angle (`c_position`) and linear/angular velocity
(`c_velocity`), and the awake flag touched by `setAwake`. -/
structure BodyState where
  xf : Transform
  localCenter : Vec2
  invMass : ℚ
  invI : ℚ
  c : Vec2
  a : ℚ
  v : Vec2
  w : ℚ
  awake : Bool
deriving DecidableEq

namespace Body

/-- Modelled from the spec: `Body.getWorldPoint(localPoint)` — map a
body-local point to world space through the body transform. -/
def getWorldPoint (b : BodyState) (lp : Vec2) : Vec2 := Transform.mulVec2 b.xf lp

/-- Modelled from the spec: `Body.getLocalPoint(worldPoint)` — map a world
point into the body frame through the inverse body transform. -/
def getLocalPoint (b : BodyState) (wp : Vec2) : Vec2 := Transform.mulTVec2 b.xf wp

/-- Modelled from the spec: `Body.setAwake(true)` — wake the body. -/
def setAwakeTrue (b : BodyState) : BodyState := { b with awake := true }

end Body

/-- Result of an `initVelocityConstraints`/`solveVelocityConstraints` call:
the updated joint and the two updated bodies. -/
structure SolverOut (α : Type) where
  joint : α
  bodyA : BodyState
  bodyB : BodyState
deriving DecidableEq

/-- Result of a `solvePositionConstraints` call: the two updated bodies and
the within-tolerance flag the method returns. -/
structure PosOut where
  bodyA : BodyState
  bodyB : BodyState
  ok : Bool
deriving DecidableEq

/-! ### DistanceJoint -/

/-- The fields of `DistanceJoint`: solver-shared state (anchors, rest
length, softness parameters, accumulated impulse, `gamma`/`bias`) and the
solver temporaries recomputed by `initVelocityConstraints`. -/
structure DistanceJoint where
  m_localAnchorA : Vec2
  m_localAnchorB : Vec2
  m_length : ℚ
  m_frequencyHz : ℚ
  m_dampingRatio : ℚ
  m_impulse : ℚ
  m_gamma : ℚ
  m_bias : ℚ
  m_u : Vec2
  m_rA : Vec2
  m_rB : Vec2
  m_localCenterA : Vec2
  m_localCenterB : Vec2
  m_invMassA : ℚ
  m_invMassB : ℚ
  m_invIA : ℚ
  m_invIB : ℚ
  m_mass : ℚ
deriving DecidableEq

/-- The `DistanceJointDef` fields the constructor reads.  `Option` models a
field absent from the definition object (for `length`, the source tests
`Math.isFinite(def.length)`; `frequencyHz`/`dampingRatio` default to 0 via
`options(def, DEFAULTS)`). -/
structure DistanceJointDef where
  localAnchorA : Option Vec2
  localAnchorB : Option Vec2
  length : Option ℚ
  frequencyHz : Option ℚ
  dampingRatio : Option ℚ
deriving DecidableEq

namespace DistanceJoint

/-- The `DistanceJoint` constructor: local anchors from the positional
world anchors when given (else from the def, else zero); `m_length` from an
explicit finite `def.length` when given, else the distance between the two
world anchor points at construction time; impulse/gamma/bias start at zero.
Solver temporaries start zeroed (the source leaves them undefined until
`initVelocityConstraints` runs). -/
def construct (F : MathFns) (dfn : DistanceJointDef) (bodyA bodyB : BodyState)
    (anchorA anchorB : Option Vec2) : DistanceJoint :=
  let localAnchorA := match anchorA with
    | some a => Body.getLocalPoint bodyA a
    | none => dfn.localAnchorA.getD Vec2.zeroV
  let localAnchorB := match anchorB with
    | some b => Body.getLocalPoint bodyB b
    | none => dfn.localAnchorB.getD Vec2.zeroV
  let length := match dfn.length with
    | some L => L
    | none => Vec2.distance F (Body.getWorldPoint bodyA localAnchorA)
        (Body.getWorldPoint bodyB localAnchorB)
  { m_localAnchorA := localAnchorA
    m_localAnchorB := localAnchorB
    m_length := length
    m_frequencyHz := dfn.frequencyHz.getD 0
    m_dampingRatio := dfn.dampingRatio.getD 0
    m_impulse := 0
    m_gamma := 0
    m_bias := 0
    m_u := Vec2.zeroV
    m_rA := Vec2.zeroV
    m_rB := Vec2.zeroV
    m_localCenterA := Vec2.zeroV
    m_localCenterB := Vec2.zeroV
    m_invMassA := 0
    m_invMassB := 0
    m_invIA := 0
    m_invIB := 0
    m_mass := 0 }

/-- `DistanceJoint.getLength()` — the natural length accessor. -/
def getLength (j : DistanceJoint) : ℚ := j.m_length

/-- The part of `DistanceJoint.initVelocityConstraints` that precedes the
warm-start block: copy body data into the solver temporaries, build the
constraint axis `u` (zeroed when shorter than `linearSlop`), compute the
scalar effective mass, and in soft mode (`frequencyHz > 0`) fold the
spring-damper `gamma`/`bias` terms into it. -/
def ivcPrep (F : MathFns) (S : Settings) (step : TimeStep)
    (j : DistanceJoint) (bA bB : BodyState) : DistanceJoint :=
  let localCenterA := bA.localCenter
  let localCenterB := bB.localCenter
  let invMassA := bA.invMass
  let invMassB := bB.invMass
  let invIA := bA.invI
  let invIB := bB.invI
  let qA := Rot.neo F bA.a
  let qB := Rot.neo F bB.a
  let rA := Rot.mulVec2 qA (Vec2.sub j.m_localAnchorA localCenterA)
  let rB := Rot.mulVec2 qB (Vec2.sub j.m_localAnchorB localCenterB)
  let u0 := Vec2.sub (Vec2.add bB.c rB) (Vec2.add bA.c rA)
  -- Handle singularity.
  let length := Vec2.len F u0
  let u := if length > S.linearSlop then Vec2.mul (1 / length) u0 else Vec2.zeroV
  let crAu := Vec2.cross rA u
  let crBu := Vec2.cross rB u
  let invMass := invMassA + invIA * crAu * crAu + invMassB + invIB * crBu * crBu
  let mass := if invMass ≠ 0 then 1 / invMass else 0
  if j.m_frequencyHz > 0 then
    let C := length - j.m_length
    let omega := 2 * F.piv * j.m_frequencyHz
    let dcoef := 2 * mass * j.m_dampingRatio * omega
    let k := mass * omega * omega
    let h := step.dt
    let gamma0 := h * (dcoef + h * k)
    let gamma := if gamma0 ≠ 0 then 1 / gamma0 else 0
    let bias := C * h * k * gamma
    let invMass2 := invMass + gamma
    let mass2 := if invMass2 ≠ 0 then 1 / invMass2 else 0
    { j with
      m_u := u, m_rA := rA, m_rB := rB
      m_localCenterA := localCenterA, m_localCenterB := localCenterB
      m_invMassA := invMassA, m_invMassB := invMassB
      m_invIA := invIA, m_invIB := invIB
      m_gamma := gamma, m_bias := bias, m_mass := mass2 }
  else
    { j with
      m_u := u, m_rA := rA, m_rB := rB
      m_localCenterA := localCenterA, m_localCenterB := localCenterB
      m_invMassA := invMassA, m_invMassB := invMassB
      m_invIA := invIA, m_invIB := invIB
      m_gamma := 0, m_bias := 0, m_mass := mass }

/-- `DistanceJoint.initVelocityConstraints(step)`: after the preparation
stage, either warm-start (scale the accumulated impulse by `dtRatio` and
apply it to the working velocities) or reset the accumulated impulse to
zero and leave the velocities alone. -/
def initVelocityConstraints (F : MathFns) (S : Settings) (step : TimeStep)
    (j : DistanceJoint) (bA bB : BodyState) : SolverOut DistanceJoint :=
  let j1 := ivcPrep F S step j bA bB
  if step.warmStarting then
    -- Scale the impulse to support a variable time step.
    let impulse := j1.m_impulse * step.dtRatio
    let P := Vec2.mul impulse j1.m_u
    let vA := Vec2.subMul bA.v j1.m_invMassA P
    let wA := bA.w - j1.m_invIA * Vec2.cross j1.m_rA P
    let vB := Vec2.addMul bB.v j1.m_invMassB P
    let wB := bB.w + j1.m_invIB * Vec2.cross j1.m_rB P
    ⟨{ j1 with m_impulse := impulse },
     { bA with v := vA, w := wA }, { bB with v := vB, w := wB }⟩
  else
    ⟨{ j1 with m_impulse := 0 }, bA, bB⟩

/-- `DistanceJoint.solveVelocityConstraints(step)`. -/
def solveVelocityConstraints (j : DistanceJoint) (bA bB : BodyState) :
    SolverOut DistanceJoint :=
  let vpA := Vec2.add bA.v (Vec2.crossSV bA.w j.m_rA)
  let vpB := Vec2.add bB.v (Vec2.crossSV bB.w j.m_rB)
  let Cdot := Vec2.dot j.m_u vpB - Vec2.dot j.m_u vpA
  let impulse := -j.m_mass * (Cdot + j.m_bias + j.m_gamma * j.m_impulse)
  let P := Vec2.mul impulse j.m_u
  let vA := Vec2.subMul bA.v j.m_invMassA P
  let wA := bA.w - j.m_invIA * Vec2.cross j.m_rA P
  let vB := Vec2.addMul bB.v j.m_invMassB P
  let wB := bB.w + j.m_invIB * Vec2.cross j.m_rB P
  ⟨{ j with m_impulse := j.m_impulse + impulse },
   { bA with v := vA, w := wA }, { bB with v := vB, w := wB }⟩

/-- `DistanceJoint.solvePositionConstraints(step)`: soft joints
(`frequencyHz > 0`) return `true` immediately with no position correction;
otherwise re-derive the anchor separation at the current working positions,
clamp the length error by `maxLinearCorrection`, and apply the corrective
impulse directly to positions/angles. -/
def solvePositionConstraints (F : MathFns) (S : Settings)
    (j : DistanceJoint) (bA bB : BodyState) : PosOut :=
  if j.m_frequencyHz > 0 then
    -- There is no position correction for soft distance constraints.
    ⟨bA, bB, true⟩
  else
    let qA := Rot.neo F bA.a
    let qB := Rot.neo F bB.a
    let rA := Rot.mulSub qA j.m_localAnchorA j.m_localCenterA
    let rB := Rot.mulSub qB j.m_localAnchorB j.m_localCenterB
    let u0 := Vec2.sub (Vec2.add bB.c rB) (Vec2.add bA.c rA)
    let lu := Vec2.normalizeWithLen F u0
    let length := lu.1
    let u := lu.2
    let C0 := length - j.m_length
    let C := MathClamp C0 (-S.maxLinearCorrection) S.maxLinearCorrection
    let impulse := -j.m_mass * C
    let P := Vec2.mul impulse u
    let cA := Vec2.subMul bA.c j.m_invMassA P
    let aA := bA.a - j.m_invIA * Vec2.cross rA P
    let cB := Vec2.addMul bB.c j.m_invMassB P
    let aB := bB.a + j.m_invIB * Vec2.cross rB P
    ⟨{ bA with c := cA, a := aA }, { bB with c := cB, a := aB },
     decide (|C| < S.linearSlop)⟩

end DistanceJoint

/-! ### RevoluteJoint -/

/-- The four-way limit state machine of the revolute joint
(`inactiveLimit`, `atLowerLimit`, `atUpperLimit`, `equalLimits`). -/
inductive LimitState where
  | inactiveLimit
  | atLowerLimit
  | atUpperLimit
  | equalLimits
deriving DecidableEq

/-- The fields of `RevoluteJoint`: solver-shared state (anchors, reference
angle, accumulated 3-component impulse, motor impulse, limit bounds, motor
parameters, enable flags) and the solver temporaries recomputed by
`initVelocityConstraints` (including the 3x3 effective mass matrix, the
scalar motor mass and the limit state). -/
structure RevoluteJoint where
  m_localAnchorA : Vec2
  m_localAnchorB : Vec2
  m_referenceAngle : ℚ
  m_impulse : Vec3
  m_motorImpulse : ℚ
  m_lowerAngle : ℚ
  m_upperAngle : ℚ
  m_maxMotorTorque : ℚ
  m_motorSpeed : ℚ
  m_enableLimit : Bool
  m_enableMotor : Bool
  m_rA : Vec2
  m_rB : Vec2
  m_localCenterA : Vec2
  m_localCenterB : Vec2
  m_invMassA : ℚ
  m_invMassB : ℚ
  m_invIA : ℚ
  m_invIB : ℚ
  m_mass : Mat33
  m_motorMass : ℚ
  m_limitState : LimitState
deriving DecidableEq

namespace RevoluteJoint

/-- `RevoluteJoint.enableLimit(flag)`: only when the flag differs from the
current one, wake both bodies, store the flag and zero the accumulated
limit impulse `m_impulse.z`; otherwise do nothing. -/
def enableLimit (flag : Bool) (j : RevoluteJoint) (bA bB : BodyState) :
    RevoluteJoint × BodyState × BodyState :=
  if flag ≠ j.m_enableLimit then
    ({ j with
        m_enableLimit := flag
        m_impulse := { j.m_impulse with z := 0 } },
     Body.setAwakeTrue bA, Body.setAwakeTrue bB)
  else
    (j, bA, bB)

/-- `RevoluteJoint.setLimits(lower, upper)`: assert `lower <= upper` when
assertion checks are enabled; then only when a bound differs from the
current ones, wake both bodies, zero the accumulated limit impulse
`m_impulse.z` and store the bounds; otherwise do nothing. -/
def setLimits (assertEnabled : Bool) (lower upper : ℚ)
    (j : RevoluteJoint) (bA bB : BodyState) :
    Except Unit (RevoluteJoint × BodyState × BodyState) :=
  if assertEnabled ∧ ¬(lower ≤ upper) then Except.error ()
  else if lower ≠ j.m_lowerAngle ∨ upper ≠ j.m_upperAngle then
    Except.ok
      ({ j with
          m_impulse := { j.m_impulse with z := 0 }
          m_lowerAngle := lower
          m_upperAngle := upper },
       Body.setAwakeTrue bA, Body.setAwakeTrue bB)
  else
    Except.ok (j, bA, bB)

/-- The part of `RevoluteJoint.initVelocityConstraints` that precedes the
warm-start block: copy body data into the solver temporaries, build the 3x3
effective mass matrix and the scalar motor mass, zero the motor impulse
when the motor is disabled or rotation is fixed, and run the limit state
machine (collapsing to `equalLimits` inside the `2 * angularSlop`
hysteresis band, zeroing `m_impulse.z` on a state transition). -/
def ivcPrep (F : MathFns) (S : Settings)
    (j : RevoluteJoint) (bA bB : BodyState) : RevoluteJoint :=
  let localCenterA := bA.localCenter
  let localCenterB := bB.localCenter
  let invMassA := bA.invMass
  let invMassB := bB.invMass
  let invIA := bA.invI
  let invIB := bB.invI
  let qA := Rot.neo F bA.a
  let qB := Rot.neo F bB.a
  let rA := Rot.mulVec2 qA (Vec2.sub j.m_localAnchorA localCenterA)
  let rB := Rot.mulVec2 qB (Vec2.sub j.m_localAnchorB localCenterB)
  let mA := invMassA
  let mB := invMassB
  let iA := invIA
  let iB := invIB
  let fixedRotation := iA + iB = 0
  let mass : Mat33 :=
    ⟨⟨mA + mB + rA.y * rA.y * iA + rB.y * rB.y * iB,
      -rA.y * rA.x * iA - rB.y * rB.x * iB,
      -rA.y * iA - rB.y * iB⟩,
     ⟨-rA.y * rA.x * iA - rB.y * rB.x * iB,
      mA + mB + rA.x * rA.x * iA + rB.x * rB.x * iB,
      rA.x * iA + rB.x * iB⟩,
     ⟨-rA.y * iA - rB.y * iB,
      rA.x * iA + rB.x * iB,
      iA + iB⟩⟩
  let motorMass0 := iA + iB
  let motorMass := if motorMass0 > 0 then 1 / motorMass0 else motorMass0
  let motorImpulse := if j.m_enableMotor = false ∨ fixedRotation then 0 else j.m_motorImpulse
  let ls :=
    if j.m_enableLimit ∧ ¬fixedRotation then
      let jointAngle := bB.a - bA.a - j.m_referenceAngle
      if |j.m_upperAngle - j.m_lowerAngle| < 2 * S.angularSlop then
        (LimitState.equalLimits, j.m_impulse.z)
      else if jointAngle ≤ j.m_lowerAngle then
        (LimitState.atLowerLimit,
         if j.m_limitState ≠ LimitState.atLowerLimit then 0 else j.m_impulse.z)
      else if jointAngle ≥ j.m_upperAngle then
        (LimitState.atUpperLimit,
         if j.m_limitState ≠ LimitState.atUpperLimit then 0 else j.m_impulse.z)
      else
        (LimitState.inactiveLimit, 0)
    else
      (LimitState.inactiveLimit, j.m_impulse.z)
  { j with
    m_rA := rA, m_rB := rB
    m_localCenterA := localCenterA, m_localCenterB := localCenterB
    m_invMassA := invMassA, m_invMassB := invMassB
    m_invIA := invIA, m_invIB := invIB
    m_mass := mass, m_motorMass := motorMass
    m_motorImpulse := motorImpulse
    m_limitState := ls.1
    m_impulse := { j.m_impulse with z := ls.2 } }

/-- `RevoluteJoint.initVelocityConstraints(step)`: after the preparation
stage, either warm-start (scale the accumulated 3-component impulse and the
motor impulse by `dtRatio` and apply them to the working velocities) or
reset both accumulated impulses to zero and leave the velocities alone. -/
def initVelocityConstraints (F : MathFns) (S : Settings) (step : TimeStep)
    (j : RevoluteJoint) (bA bB : BodyState) : SolverOut RevoluteJoint :=
  let j1 := ivcPrep F S j bA bB
  if step.warmStarting then
    -- Scale impulses to support a variable time step.
    let impulse := Vec3.mul step.dtRatio j1.m_impulse
    let motorImpulse := j1.m_motorImpulse * step.dtRatio
    let P : Vec2 := ⟨impulse.x, impulse.y⟩
    let vA := Vec2.subMul bA.v j1.m_invMassA P
    let wA := bA.w - j1.m_invIA * (Vec2.cross j1.m_rA P + motorImpulse + impulse.z)
    let vB := Vec2.addMul bB.v j1.m_invMassB P
    let wB := bB.w + j1.m_invIB * (Vec2.cross j1.m_rB P + motorImpulse + impulse.z)
    ⟨{ j1 with m_impulse := impulse, m_motorImpulse := motorImpulse },
     { bA with v := vA, w := wA }, { bB with v := vB, w := wB }⟩
  else
    ⟨{ j1 with m_impulse := Vec3.zeroV, m_motorImpulse := 0 }, bA, bB⟩

/-- The motor stage of `RevoluteJoint.solveVelocityConstraints`: with the
motor enabled, outside `equalLimits` and with rotation not fixed, apply a
motor impulse clamped by `dt * maxMotorTorque`; returns the two angular
velocities and the accumulated motor impulse after the stage. -/
def motorStage (step : TimeStep) (j : RevoluteJoint) (bA bB : BodyState) : ℚ × ℚ × ℚ :=
  let iA := j.m_invIA
  let iB := j.m_invIB
  let fixedRotation := iA + iB = 0
  if j.m_enableMotor ∧ j.m_limitState ≠ LimitState.equalLimits ∧ ¬fixedRotation then
    let Cdot := bB.w - bA.w - j.m_motorSpeed
    let impulse0 := -j.m_motorMass * Cdot
    let oldImpulse := j.m_motorImpulse
    let maxImpulse := step.dt * j.m_maxMotorTorque
    let newMotorImpulse := MathClamp (oldImpulse + impulse0) (-maxImpulse) maxImpulse
    let impulse := newMotorImpulse - oldImpulse
    (bA.w - iA * impulse, bB.w + iB * impulse, newMotorImpulse)
  else
    (bA.w, bB.w, j.m_motorImpulse)

/-- `RevoluteJoint.solveVelocityConstraints(step)`: motor stage, then
either the limit stage (full 3x3 solve; applied in full at `equalLimits`,
sign-guarded at the lower/upper limits with a 2x2 reduced-system fallback
when the accumulated `z` impulse would cross zero) or the plain
point-to-point 2x2 stage. -/
def solveVelocityConstraints (step : TimeStep)
    (j : RevoluteJoint) (bA bB : BodyState) : SolverOut RevoluteJoint :=
  let mA := j.m_invMassA
  let mB := j.m_invMassB
  let iA := j.m_invIA
  let iB := j.m_invIB
  let fixedRotation := iA + iB = 0
  -- Solve motor constraint.
  let ms := motorStage step j bA bB
  let wA0 := ms.1
  let wB0 := ms.2.1
  let motorImpulse := ms.2.2
  if j.m_enableLimit ∧ j.m_limitState ≠ LimitState.inactiveLimit ∧ ¬fixedRotation then
    -- Solve limit constraint.
    let Cdot1 := Vec2.subCombine (Vec2.addCombine Vec2.zeroV 1 bB.v 1 (Vec2.crossSV wB0 j.m_rB))
      1 bA.v 1 (Vec2.crossSV wA0 j.m_rA)
    let Cdot2 := wB0 - wA0
    let Cdot : Vec3 := ⟨Cdot1.x, Cdot1.y, Cdot2⟩
    let impulse0 := Vec3.neg (Mat33.solve33 j.m_mass Cdot)
    let ia :=  -- (applied impulse, new accumulated m_impulse)
      if j.m_limitState = LimitState.equalLimits then
        (impulse0, Vec3.add j.m_impulse impulse0)
      else if j.m_limitState = LimitState.atLowerLimit then
        let newImpulse := j.m_impulse.z + impulse0.z
        if newImpulse < 0 then
          let rhs := Vec2.combine (-1) Cdot1 j.m_impulse.z ⟨j.m_mass.ez.x, j.m_mass.ez.y⟩
          let reduced := Mat33.solve22 j.m_mass rhs
          (⟨reduced.x, reduced.y, -j.m_impulse.z⟩,
           ⟨j.m_impulse.x + reduced.x, j.m_impulse.y + reduced.y, 0⟩)
        else
          (impulse0, Vec3.add j.m_impulse impulse0)
      else
        let newImpulse := j.m_impulse.z + impulse0.z
        if newImpulse > 0 then
          let rhs := Vec2.combine (-1) Cdot1 j.m_impulse.z ⟨j.m_mass.ez.x, j.m_mass.ez.y⟩
          let reduced := Mat33.solve22 j.m_mass rhs
          (⟨reduced.x, reduced.y, -j.m_impulse.z⟩,
           ⟨j.m_impulse.x + reduced.x, j.m_impulse.y + reduced.y, 0⟩)
        else
          (impulse0, Vec3.add j.m_impulse impulse0)
    let applied := ia.1
    let P : Vec2 := ⟨applied.x, applied.y⟩
    let vA := Vec2.subMul bA.v mA P
    let wA := wA0 - iA * (Vec2.cross j.m_rA P + applied.z)
    let vB := Vec2.addMul bB.v mB P
    let wB := wB0 + iB * (Vec2.cross j.m_rB P + applied.z)
    ⟨{ j with m_impulse := ia.2, m_motorImpulse := motorImpulse },
     { bA with v := vA, w := wA }, { bB with v := vB, w := wB }⟩
  else
    -- Solve point-to-point constraint.
    let Cdot := Vec2.subCombine (Vec2.addCombine Vec2.zeroV 1 bB.v 1 (Vec2.crossSV wB0 j.m_rB))
      1 bA.v 1 (Vec2.crossSV wA0 j.m_rA)
    let impulse := Mat33.solve22 j.m_mass (Vec2.neg Cdot)
    let vA := Vec2.subMul bA.v mA impulse
    let wA := wA0 - iA * Vec2.cross j.m_rA impulse
    let vB := Vec2.addMul bB.v mB impulse
    let wB := wB0 + iB * Vec2.cross j.m_rB impulse
    ⟨{ j with
       m_impulse := ⟨j.m_impulse.x + impulse.x, j.m_impulse.y + impulse.y, j.m_impulse.z⟩,
       m_motorImpulse := motorImpulse },
     { bA with v := vA, w := wA }, { bB with v := vB, w := wB }⟩

/-- The clamped angular position error the limit stage of
`RevoluteJoint.solvePositionConstraints` feeds into the corrective limit
impulse: at `equalLimits` the error is clamped into
`[-maxAngularCorrection, maxAngularCorrection]`; at the lower (upper)
limit it is relaxed by `angularSlop` and clamped into
`[-maxAngularCorrection, 0]` (`[0, maxAngularCorrection]`). -/
def spcLimitC (S : Settings) (j : RevoluteJoint) (angle : ℚ) : ℚ :=
  if j.m_limitState = LimitState.equalLimits then
    MathClamp (angle - j.m_lowerAngle) (-S.maxAngularCorrection) S.maxAngularCorrection
  else if j.m_limitState = LimitState.atLowerLimit then
    MathClamp (angle - j.m_lowerAngle + S.angularSlop) (-S.maxAngularCorrection) 0
  else if j.m_limitState = LimitState.atUpperLimit then
    MathClamp (angle - j.m_upperAngle - S.angularSlop) 0 S.maxAngularCorrection
  else 0

/-- The angular error reported from the limit stage of
`RevoluteJoint.solvePositionConstraints`: the absolute clamped error at
`equalLimits`, the raw (un-clamped, un-relaxed) limit violation at the
lower/upper limits, zero otherwise. -/
def spcAngularError (S : Settings) (j : RevoluteJoint) (angle : ℚ) : ℚ :=
  if j.m_limitState = LimitState.equalLimits then
    |MathClamp (angle - j.m_lowerAngle) (-S.maxAngularCorrection) S.maxAngularCorrection|
  else if j.m_limitState = LimitState.atLowerLimit then
    -(angle - j.m_lowerAngle)
  else if j.m_limitState = LimitState.atUpperLimit then
    angle - j.m_upperAngle
  else 0

/-- `RevoluteJoint.solvePositionConstraints(step)`: when the limit is
enabled, active and rotation is not fixed, apply the corrective limit
impulse `-motorMass * spcLimitC` to the working angles; then re-derive the
anchor separation at the (possibly angle-corrected) current working
positions and apply the un-clamped 2x2 point-to-point position correction;
report whether both the position error and the angular error are within
the slop tolerances. -/
def solvePositionConstraints (F : MathFns) (S : Settings)
    (j : RevoluteJoint) (bA bB : BodyState) : PosOut :=
  let fixedRotation := j.m_invIA + j.m_invIB = 0
  -- Solve angular limit constraint.
  let limitActive := j.m_enableLimit ∧ j.m_limitState ≠ LimitState.inactiveLimit ∧ ¬fixedRotation
  let angle := bB.a - bA.a - j.m_referenceAngle
  let angularError := if limitActive then spcAngularError S j angle else 0
  let limitImpulse := if limitActive then -j.m_motorMass * spcLimitC S j angle else 0
  let aA0 := bA.a - j.m_invIA * limitImpulse
  let aB0 := bB.a + j.m_invIB * limitImpulse
  -- Solve point-to-point constraint.
  let qA := Rot.neo F aA0
  let qB := Rot.neo F aB0
  let rA := Rot.mulVec2 qA (Vec2.sub j.m_localAnchorA j.m_localCenterA)
  let rB := Rot.mulVec2 qB (Vec2.sub j.m_localAnchorB j.m_localCenterB)
  let C := Vec2.subCombine (Vec2.addCombine Vec2.zeroV 1 bB.c 1 rB) 1 bA.c 1 rA
  let positionError := Vec2.len F C
  let mA := j.m_invMassA
  let mB := j.m_invMassB
  let iA := j.m_invIA
  let iB := j.m_invIB
  let K : Mat22 :=
    ⟨⟨mA + mB + iA * rA.y * rA.y + iB * rB.y * rB.y,
      -iA * rA.x * rA.y - iB * rB.x * rB.y⟩,
     ⟨-iA * rA.x * rA.y - iB * rB.x * rB.y,
      mA + mB + iA * rA.x * rA.x + iB * rB.x * rB.x⟩⟩
  let impulse := Vec2.neg (Mat22.solve K C)
  let cA := Vec2.subMul bA.c mA impulse
  let aA := aA0 - iA * Vec2.cross rA impulse
  let cB := Vec2.addMul bB.c mB impulse
  let aB := aB0 + iB * Vec2.cross rB impulse
  ⟨{ bA with c := cA, a := aA }, { bB with c := cB, a := aB },
   decide (positionError ≤ S.linearSlop ∧ angularError ≤ S.angularSlop)⟩

end RevoluteJoint

/-! ### PulleyJoint -/

/-- The fields of `PulleyJoint`: solver-shared state (ground anchors, local
anchors, reference segment lengths, ratio, the pulley constant
`lengthA + ratio * lengthB`, accumulated impulse) and the solver
temporaries recomputed by `initVelocityConstraints`. -/
structure PulleyJoint where
  m_groundAnchorA : Vec2
  m_groundAnchorB : Vec2
  m_localAnchorA : Vec2
  m_localAnchorB : Vec2
  m_lengthA : ℚ
  m_lengthB : ℚ
  m_ratio : ℚ
  m_constant : ℚ
  m_impulse : ℚ
  m_uA : Vec2
  m_uB : Vec2
  m_rA : Vec2
  m_rB : Vec2
  m_localCenterA : Vec2
  m_localCenterB : Vec2
  m_invMassA : ℚ
  m_invMassB : ℚ
  m_invIA : ℚ
  m_invIB : ℚ
  m_mass : ℚ
deriving DecidableEq

/-- The `PulleyJointDef` fields the constructor reads.  `Option` models a
field absent from the definition object (the source tests
`Math.isFinite(def.lengthA)` and applies `||`-defaults for anchors). -/
structure PulleyJointDef where
  groundAnchorA : Option Vec2
  groundAnchorB : Option Vec2
  localAnchorA : Option Vec2
  localAnchorB : Option Vec2
  lengthA : Option ℚ
  lengthB : Option ℚ
  defRatio : ℚ
deriving DecidableEq

namespace PulleyJoint

/-- The `PulleyJoint` constructor.  Anchors come from the positional
arguments when given, else from the def, else from the coded default; the
segment lengths come from finite def fields else from the positional
anchor/ground distances (the source would fault on the fallback when the
positional anchors are absent; modelled with zero placeholders, never
reached by the claims); the ratio comes from a finite positional argument
else the def.  The assertion then evaluates `ratio > Math.EPSILON` on the
POSITIONAL argument — an absent positional argument compares as false, as
`undefined > x` does in the source language — and construction fails when
assertion checks are enabled and the comparison is false. -/
def construct (F : MathFns) (assertEnabled : Bool) (dfn : PulleyJointDef)
    (bodyA bodyB : BodyState) (groundA groundB anchorA anchorB : Option Vec2)
    (ratioArg : Option ℚ) : Except Unit PulleyJoint :=
  let groundAnchorA := groundA.getD (dfn.groundAnchorA.getD ⟨-1, 1⟩)
  let groundAnchorB := groundB.getD (dfn.groundAnchorB.getD ⟨1, 1⟩)
  let localAnchorA := match anchorA with
    | some a => Body.getLocalPoint bodyA a
    | none => dfn.localAnchorA.getD ⟨-1, 0⟩
  let localAnchorB := match anchorB with
    | some b => Body.getLocalPoint bodyB b
    | none => dfn.localAnchorB.getD ⟨1, 0⟩
  let lengthA := match dfn.lengthA with
    | some l => l
    | none => Vec2.distance F (anchorA.getD Vec2.zeroV) (groundA.getD Vec2.zeroV)
  let lengthB := match dfn.lengthB with
    | some l => l
    | none => Vec2.distance F (anchorB.getD Vec2.zeroV) (groundB.getD Vec2.zeroV)
  let ratioVal := ratioArg.getD dfn.defRatio
  let assertCond : Bool := match ratioArg with
    | some r => decide (r > F.epsilon)
    | none => false
  if assertEnabled ∧ ¬assertCond then Except.error ()
  else Except.ok
    { m_groundAnchorA := groundAnchorA
      m_groundAnchorB := groundAnchorB
      m_localAnchorA := localAnchorA
      m_localAnchorB := localAnchorB
      m_lengthA := lengthA
      m_lengthB := lengthB
      m_ratio := ratioVal
      m_constant := lengthA + ratioVal * lengthB
      m_impulse := 0
      m_uA := Vec2.zeroV
      m_uB := Vec2.zeroV
      m_rA := Vec2.zeroV
      m_rB := Vec2.zeroV
      m_localCenterA := Vec2.zeroV
      m_localCenterB := Vec2.zeroV
      m_invMassA := 0
      m_invMassB := 0
      m_invIA := 0
      m_invIB := 0
      m_mass := 0 }

/-- The part of `PulleyJoint.initVelocityConstraints` that precedes the
warm-start block: copy body data into the solver temporaries, build the two
pulley axes (each zeroed when shorter than `10 * linearSlop`), and compute
the scalar effective mass `mA + ratio^2 * mB`, inverted only when
positive. -/
def ivcPrep (F : MathFns) (S : Settings)
    (j : PulleyJoint) (bA bB : BodyState) : PulleyJoint :=
  let localCenterA := bA.localCenter
  let localCenterB := bB.localCenter
  let invMassA := bA.invMass
  let invMassB := bB.invMass
  let invIA := bA.invI
  let invIB := bB.invI
  let qA := Rot.neo F bA.a
  let qB := Rot.neo F bB.a
  let rA := Rot.mulVec2 qA (Vec2.sub j.m_localAnchorA localCenterA)
  let rB := Rot.mulVec2 qB (Vec2.sub j.m_localAnchorB localCenterB)
  -- Get the pulley axes.
  let uA0 := Vec2.sub (Vec2.add bA.c rA) j.m_groundAnchorA
  let uB0 := Vec2.sub (Vec2.add bB.c rB) j.m_groundAnchorB
  let lengthA := Vec2.len F uA0
  let lengthB := Vec2.len F uB0
  let uA := if lengthA > 10 * S.linearSlop then Vec2.mul (1 / lengthA) uA0 else Vec2.zeroV
  let uB := if lengthB > 10 * S.linearSlop then Vec2.mul (1 / lengthB) uB0 else Vec2.zeroV
  -- Compute effective mass.
  let ruA := Vec2.cross rA uA
  let ruB := Vec2.cross rB uB
  let mA := invMassA + invIA * ruA * ruA
  let mB := invMassB + invIB * ruB * ruB
  let mass0 := mA + j.m_ratio * j.m_ratio * mB
  let mass := if mass0 > 0 then 1 / mass0 else mass0
  { j with
    m_uA := uA, m_uB := uB, m_rA := rA, m_rB := rB
    m_localCenterA := localCenterA, m_localCenterB := localCenterB
    m_invMassA := invMassA, m_invMassB := invMassB
    m_invIA := invIA, m_invIB := invIB
    m_mass := mass }

/-- `PulleyJoint.initVelocityConstraints(step)`: after the preparation
stage, either warm-start (scale the accumulated impulse by `dtRatio` and
apply `-impulse * uA` on body A and `-ratio * impulse * uB` on body B) or
reset the accumulated impulse to zero and leave the velocities alone. -/
def initVelocityConstraints (F : MathFns) (S : Settings) (step : TimeStep)
    (j : PulleyJoint) (bA bB : BodyState) : SolverOut PulleyJoint :=
  let j1 := ivcPrep F S j bA bB
  if step.warmStarting then
    -- Scale impulses to support variable time steps.
    let impulse := j1.m_impulse * step.dtRatio
    let PA := Vec2.mul (-impulse) j1.m_uA
    let PB := Vec2.mul (-j1.m_ratio * impulse) j1.m_uB
    let vA := Vec2.addMul bA.v j1.m_invMassA PA
    let wA := bA.w + j1.m_invIA * Vec2.cross j1.m_rA PA
    let vB := Vec2.addMul bB.v j1.m_invMassB PB
    let wB := bB.w + j1.m_invIB * Vec2.cross j1.m_rB PB
    ⟨{ j1 with m_impulse := impulse },
     { bA with v := vA, w := wA }, { bB with v := vB, w := wB }⟩
  else
    ⟨{ j1 with m_impulse := 0 }, bA, bB⟩

/-- `PulleyJoint.solvePositionConstraints(step)`: re-derive the pulley
axes from the current working centers (with the anchor offsets `m_rA`,
`m_rB` stored at velocity-init time), recompute the effective mass, and
apply the position correction computed from the UN-clamped constraint
error `constant - lengthA - ratio * lengthB`. -/
def solvePositionConstraints (F : MathFns) (S : Settings)
    (j : PulleyJoint) (bA bB : BodyState) : PosOut :=
  let qA := Rot.neo F bA.a
  let qB := Rot.neo F bB.a
  let rA := Rot.mulVec2 qA (Vec2.sub j.m_localAnchorA j.m_localCenterA)
  let rB := Rot.mulVec2 qB (Vec2.sub j.m_localAnchorB j.m_localCenterB)
  -- Get the pulley axes.
  let uA0 := Vec2.sub (Vec2.add bA.c j.m_rA) j.m_groundAnchorA
  let uB0 := Vec2.sub (Vec2.add bB.c j.m_rB) j.m_groundAnchorB
  let lengthA := Vec2.len F uA0
  let lengthB := Vec2.len F uB0
  let uA := if lengthA > 10 * S.linearSlop then Vec2.mul (1 / lengthA) uA0 else Vec2.zeroV
  let uB := if lengthB > 10 * S.linearSlop then Vec2.mul (1 / lengthB) uB0 else Vec2.zeroV
  -- Compute effective mass.
  let ruA := Vec2.cross rA uA
  let ruB := Vec2.cross rB uB
  let mA := j.m_invMassA + j.m_invIA * ruA * ruA
  let mB := j.m_invMassB + j.m_invIB * ruB * ruB
  let mass0 := mA + j.m_ratio * j.m_ratio * mB
  let mass := if mass0 > 0 then 1 / mass0 else mass0
  let C := j.m_constant - lengthA - j.m_ratio * lengthB
  let linearError := |C|
  let impulse := -mass * C
  let PA := Vec2.mul (-impulse) uA
  let PB := Vec2.mul (-j.m_ratio * impulse) uB
  let cA := Vec2.addMul bA.c j.m_invMassA PA
  let aA := bA.a + j.m_invIA * Vec2.cross rA PA
  let cB := Vec2.addMul bB.c j.m_invMassB PB
  let aB := bB.a + j.m_invIB * Vec2.cross rB PB
  ⟨{ bA with c := cA, a := aA }, { bB with c := cB, a := aB },
   decide (linearError < S.linearSlop)⟩

end PulleyJoint

/-! ### Spec-side comparison definitions

These definitions follow the SPEC's words (not the source) and exist only
to be compared against the embedded source functions. -/

/-- Modelled from the spec: the claimed universal effective-mass sum
"invMass_A + invMass_B + invI_A*(r_A x axis)^2 + invI_B*(r_B x axis)^2". -/
def specStandardEffectiveMassSum (invMassA invMassB invIA invIB : ℚ)
    (rA rB axisA axisB : Vec2) : ℚ :=
  invMassA + invMassB + invIA * Vec2.cross rA axisA * Vec2.cross rA axisA
    + invIB * Vec2.cross rB axisB * Vec2.cross rB axisB

/-- Modelled from the spec: "inverted only when > 0 else treated as 0". -/
def specInvertMassSum (k : ℚ) : ℚ := if k > 0 then 1 / k else 0

/-- Modelled from the spec: the claimed pulley position solve in which the
re-derived geometric error is clamped into
`[-maxLinearCorrection, maxLinearCorrection]` before the correction is
applied; identical to `PulleyJoint.solvePositionConstraints` except for the
clamp on `C`. -/
def specPulleyClampedSolvePosition (F : MathFns) (S : Settings)
    (j : PulleyJoint) (bA bB : BodyState) : PosOut :=
  let qA := Rot.neo F bA.a
  let qB := Rot.neo F bB.a
  let rA := Rot.mulVec2 qA (Vec2.sub j.m_localAnchorA j.m_localCenterA)
  let rB := Rot.mulVec2 qB (Vec2.sub j.m_localAnchorB j.m_localCenterB)
  let uA0 := Vec2.sub (Vec2.add bA.c j.m_rA) j.m_groundAnchorA
  let uB0 := Vec2.sub (Vec2.add bB.c j.m_rB) j.m_groundAnchorB
  let lengthA := Vec2.len F uA0
  let lengthB := Vec2.len F uB0
  let uA := if lengthA > 10 * S.linearSlop then Vec2.mul (1 / lengthA) uA0 else Vec2.zeroV
  let uB := if lengthB > 10 * S.linearSlop then Vec2.mul (1 / lengthB) uB0 else Vec2.zeroV
  let ruA := Vec2.cross rA uA
  let ruB := Vec2.cross rB uB
  let mA := j.m_invMassA + j.m_invIA * ruA * ruA
  let mB := j.m_invMassB + j.m_invIB * ruB * ruB
  let mass0 := mA + j.m_ratio * j.m_ratio * mB
  let mass := if mass0 > 0 then 1 / mass0 else mass0
  let C := MathClamp (j.m_constant - lengthA - j.m_ratio * lengthB)
    (-S.maxLinearCorrection) S.maxLinearCorrection
  let linearError := |C|
  let impulse := -mass * C
  let PA := Vec2.mul (-impulse) uA
  let PB := Vec2.mul (-j.m_ratio * impulse) uB
  let cA := Vec2.addMul bA.c j.m_invMassA PA
  let aA := bA.a + j.m_invIA * Vec2.cross rA PA
  let cB := Vec2.addMul bB.c j.m_invMassB PB
  let aB := bB.a + j.m_invIB * Vec2.cross rB PB
  ⟨{ bA with c := cA, a := aA }, { bB with c := cB, a := aB },
   decide (linearError < S.linearSlop)⟩

/-- Modelled from the spec: the claimed revolute velocity solve in which
the full 3x3 system is used ONLY in the `equalLimits` state, and "in every
other limit state the solver uses the 2x2 point-to-point matrix (plus the
separate scalar motor mass for the motor)".  The motor stage and the
`equalLimits` branch are identical to
`RevoluteJoint.solveVelocityConstraints`; every other state runs the plain
point-to-point 2x2 solve. -/
def specRevolute2x2SolveVelocity (step : TimeStep)
    (j : RevoluteJoint) (bA bB : BodyState) : SolverOut RevoluteJoint :=
  let mA := j.m_invMassA
  let mB := j.m_invMassB
  let iA := j.m_invIA
  let iB := j.m_invIB
  let fixedRotation := iA + iB = 0
  let ms := RevoluteJoint.motorStage step j bA bB
  let wA0 := ms.1
  let wB0 := ms.2.1
  let motorImpulse := ms.2.2
  if j.m_enableLimit ∧ j.m_limitState = LimitState.equalLimits ∧ ¬fixedRotation then
    let Cdot1 := Vec2.subCombine (Vec2.addCombine Vec2.zeroV 1 bB.v 1 (Vec2.crossSV wB0 j.m_rB))
      1 bA.v 1 (Vec2.crossSV wA0 j.m_rA)
    let Cdot2 := wB0 - wA0
    let Cdot : Vec3 := ⟨Cdot1.x, Cdot1.y, Cdot2⟩
    let impulse0 := Vec3.neg (Mat33.solve33 j.m_mass Cdot)
    let P : Vec2 := ⟨impulse0.x, impulse0.y⟩
    let vA := Vec2.subMul bA.v mA P
    let wA := wA0 - iA * (Vec2.cross j.m_rA P + impulse0.z)
    let vB := Vec2.addMul bB.v mB P
    let wB := wB0 + iB * (Vec2.cross j.m_rB P + impulse0.z)
    ⟨{ j with m_impulse := Vec3.add j.m_impulse impulse0, m_motorImpulse := motorImpulse },
     { bA with v := vA, w := wA }, { bB with v := vB, w := wB }⟩
  else
    let Cdot := Vec2.subCombine (Vec2.addCombine Vec2.zeroV 1 bB.v 1 (Vec2.crossSV wB0 j.m_rB))
      1 bA.v 1 (Vec2.crossSV wA0 j.m_rA)
    let impulse := Mat33.solve22 j.m_mass (Vec2.neg Cdot)
    let vA := Vec2.subMul bA.v mA impulse
    let wA := wA0 - iA * Vec2.cross j.m_rA impulse
    let vB := Vec2.addMul bB.v mB impulse
    let wB := wB0 + iB * Vec2.cross j.m_rB impulse
    ⟨{ j with
       m_impulse := ⟨j.m_impulse.x + impulse.x, j.m_impulse.y + impulse.y, j.m_impulse.z⟩,
       m_motorImpulse := motorImpulse },
     { bA with v := vA, w := wA }, { bB with v := vB, w := wB }⟩

/-! ### Helper lemmas -/

/-- `MathClamp` lands in the interval when the interval is non-empty. -/
theorem MathClamp_mem (num lo hi : ℚ) (h : lo ≤ hi) :
    lo ≤ MathClamp num lo hi ∧ MathClamp num lo hi ≤ hi := by
  unfold MathClamp
  split
  · exact ⟨le_refl lo, h⟩
  · split
    · exact ⟨h, le_refl hi⟩
    · constructor
      · exact le_of_not_lt (by assumption)
      · exact le_of_not_lt (by assumption)

/-! ### Claims -/

/-- Claim C1: for every pair of circle shapes with world-space center
distance `d` and radii `rA`, `rB`, `CollideCircles` populates the manifold
with point count 1 if `d <= rA + rB` and point count 0 otherwise; in the
touching case the manifold type is `e_circles` and its single point's local
point is the second circle's local center. -/
theorem claim_C1 (circleA circleB : CircleShape) (xfA xfB : Transform)
    (m0 : Manifold) (d : ℝ)
    (hrA : (0 : ℚ) ≤ circleA.m_radius) (hrB : (0 : ℚ) ≤ circleB.m_radius)
    (hd : 0 ≤ d)
    (hdsq : d ^ 2 = ((Vec2.distanceSquared (Transform.mulVec2 xfB circleB.m_p)
      (Transform.mulVec2 xfA circleA.m_p) : ℚ) : ℝ)) :
    ((d ≤ (circleA.m_radius : ℝ) + (circleB.m_radius : ℝ)) →
      (CollideCircles circleA xfA circleB xfB m0).pointCount = 1 ∧
      (CollideCircles circleA xfA circleB xfB m0).mtype = ManifoldType.e_circles ∧
      (CollideCircles circleA xfA circleB xfB m0).point0.localPoint = circleB.m_p) ∧
    (((circleA.m_radius : ℝ) + (circleB.m_radius : ℝ) < d) →
      (CollideCircles circleA xfA circleB xfB m0).pointCount = 0) := by
  have hr : (0 : ℝ) ≤ (circleA.m_radius : ℝ) + (circleB.m_radius : ℝ) := by
    have h1 : (0 : ℝ) ≤ (circleA.m_radius : ℝ) := by exact_mod_cast hrA
    have h2 : (0 : ℝ) ≤ (circleB.m_radius : ℝ) := by exact_mod_cast hrB
    linarith
  have hiff : (Vec2.distanceSquared (Transform.mulVec2 xfB circleB.m_p)
      (Transform.mulVec2 xfA circleA.m_p)
      ≤ (circleA.m_radius + circleB.m_radius) * (circleA.m_radius + circleB.m_radius))
      ↔ (d ≤ (circleA.m_radius : ℝ) + (circleB.m_radius : ℝ)) := by
    rw [show (Vec2.distanceSquared (Transform.mulVec2 xfB circleB.m_p)
        (Transform.mulVec2 xfA circleA.m_p)
        ≤ (circleA.m_radius + circleB.m_radius) * (circleA.m_radius + circleB.m_radius))
        ↔ ((Vec2.distanceSquared (Transform.mulVec2 xfB circleB.m_p)
        (Transform.mulVec2 xfA circleA.m_p) : ℚ) : ℝ)
        ≤ (((circleA.m_radius + circleB.m_radius) * (circleA.m_radius + circleB.m_radius) : ℚ) : ℝ)
        from (Rat.cast_le (K := ℝ)).symm]
    rw [← hdsq]
    push_cast
    constructor
    · intro h
      have h2 : d ^ 2 ≤ ((circleA.m_radius : ℝ) + (circleB.m_radius : ℝ)) ^ 2 := by
        nlinarith
      exact le_of_pow_le_pow_left₀ two_ne_zero hr h2
    · intro h
      have h2 : d ^ 2 ≤ ((circleA.m_radius : ℝ) + (circleB.m_radius : ℝ)) ^ 2 :=
        pow_le_pow_left₀ hd h 2
      nlinarith
  constructor
  · intro hle
    have hcond : ¬(Vec2.distanceSquared (Transform.mulVec2 xfB circleB.m_p)
        (Transform.mulVec2 xfA circleA.m_p)
        > (circleA.m_radius + circleB.m_radius) * (circleA.m_radius + circleB.m_radius)) :=
      not_lt.mpr (hiff.mpr hle)
    simp only [CollideCircles]
    rw [if_neg hcond]
    exact ⟨rfl, rfl, rfl⟩
  · intro hgt
    have hcond : Vec2.distanceSquared (Transform.mulVec2 xfB circleB.m_p)
        (Transform.mulVec2 xfA circleA.m_p)
        > (circleA.m_radius + circleB.m_radius) * (circleA.m_radius + circleB.m_radius) := by
      by_contra hc
      exact absurd (hiff.mp (le_of_not_lt hc)) (not_le.mpr hgt)
    simp only [CollideCircles]
    rw [if_pos hcond]

/-- Witness for claim C1: two unit circles with centers 2 apart are exactly
touching and produce a one-point manifold. -/
theorem claim_C1_witness :
    (0 : ℚ) ≤ (1 : ℚ) ∧ (0 : ℝ) ≤ (2 : ℝ) ∧
    (CollideCircles ⟨⟨0, 0⟩, 1⟩ ⟨⟨0, 0⟩, ⟨0, 1⟩⟩ ⟨⟨2, 0⟩, 1⟩ ⟨⟨0, 0⟩, ⟨0, 1⟩⟩
      ⟨ManifoldType.e_faceA, ⟨0, 0⟩, ⟨0, 0⟩, 0,
        ⟨⟨0, 0⟩, 0, 0, ⟨0, ContactFeatureType.e_vertex, 0, ContactFeatureType.e_vertex⟩⟩,
        ⟨⟨0, 0⟩, 0, 0, ⟨0, ContactFeatureType.e_vertex, 0, ContactFeatureType.e_vertex⟩⟩⟩).pointCount = 1 := by
  refine ⟨by norm_num, by norm_num, ?_⟩
  have h := (claim_C1 ⟨⟨0, 0⟩, 1⟩ ⟨⟨2, 0⟩, 1⟩ ⟨⟨0, 0⟩, ⟨0, 1⟩⟩ ⟨⟨0, 0⟩, ⟨0, 1⟩⟩
    ⟨ManifoldType.e_faceA, ⟨0, 0⟩, ⟨0, 0⟩, 0,
      ⟨⟨0, 0⟩, 0, 0, ⟨0, ContactFeatureType.e_vertex, 0, ContactFeatureType.e_vertex⟩⟩,
      ⟨⟨0, 0⟩, 0, 0, ⟨0, ContactFeatureType.e_vertex, 0, ContactFeatureType.e_vertex⟩⟩⟩
    2 (by norm_num) (by norm_num) (by norm_num)
    (by
      rw [show Vec2.distanceSquared (Transform.mulVec2 ⟨⟨0, 0⟩, ⟨0, 1⟩⟩ (⟨⟨2, 0⟩, (1 : ℚ)⟩ : CircleShape).m_p)
        (Transform.mulVec2 ⟨⟨0, 0⟩, ⟨0, 1⟩⟩ (⟨⟨0, 0⟩, (1 : ℚ)⟩ : CircleShape).m_p) = (4 : ℚ) from by
          norm_num [Vec2.distanceSquared, Transform.mulVec2, Rot.mulVec2, Vec2.add]]
      norm_num))
  exact (h.1 (by norm_num)).1

/-- Claim C2: for every revolute joint with the limit enabled and at least
one body rotatable (`invIA + invIB > 0`), after any call to
`initVelocityConstraints`: if `|upperAngle - lowerAngle| < 2 * angularSlop`
then the limit state is `equalLimits` — never `atLowerLimit` or
`atUpperLimit` — regardless of the current joint angle. -/
theorem claim_C2 (F : MathFns) (S : Settings) (step : TimeStep)
    (j : RevoluteJoint) (bA bB : BodyState)
    (hEn : j.m_enableLimit = true)
    (hRot : 0 < bA.invI + bB.invI)
    (hBand : |j.m_upperAngle - j.m_lowerAngle| < 2 * S.angularSlop) :
    (RevoluteJoint.initVelocityConstraints F S step j bA bB).joint.m_limitState
      = LimitState.equalLimits ∧
    (RevoluteJoint.initVelocityConstraints F S step j bA bB).joint.m_limitState
      ≠ LimitState.atLowerLimit ∧
    (RevoluteJoint.initVelocityConstraints F S step j bA bB).joint.m_limitState
      ≠ LimitState.atUpperLimit := by
  have hfix : ¬(bA.invI + bB.invI = 0) := ne_of_gt hRot
  have hmain : (RevoluteJoint.initVelocityConstraints F S step j bA bB).joint.m_limitState
      = LimitState.equalLimits := by
    unfold RevoluteJoint.initVelocityConstraints RevoluteJoint.ivcPrep
    simp only [hEn, hfix, hBand, true_and, not_false_iff, if_true, if_pos]
    split <;> simp [hBand]
  refine ⟨hmain, ?_, ?_⟩
  · rw [hmain]; intro hc; cases hc
  · rw [hmain]; intro hc; cases hc

/-- Witness for claim C2: a concrete revolute joint whose limit band
`[0, 1/100]` is narrower than `2 * angularSlop = 2` lands in
`equalLimits` although its joint angle 5 is far above the upper bound. -/
theorem claim_C2_witness :
    (RevoluteJoint.initVelocityConstraints ⟨fun _ => 1, fun _ => 0, fun _ => 0, 0, 3⟩
      ⟨1/200, 1, 1/5, 1⟩ ⟨1/60, 1, true⟩
      ⟨⟨0, 0⟩, ⟨0, 0⟩, 0, ⟨0, 0, 0⟩, 0, 0, 1/100, 0, 0, true, false,
       ⟨0, 0⟩, ⟨0, 0⟩, ⟨0, 0⟩, ⟨0, 0⟩, 0, 0, 0, 0,
       ⟨⟨0, 0, 0⟩, ⟨0, 0, 0⟩, ⟨0, 0, 0⟩⟩, 0, LimitState.inactiveLimit⟩
      ⟨⟨⟨0, 0⟩, ⟨0, 1⟩⟩, ⟨0, 0⟩, 1, 1, ⟨0, 0⟩, 0, ⟨0, 0⟩, 0, true⟩
      ⟨⟨⟨0, 0⟩, ⟨0, 1⟩⟩, ⟨0, 0⟩, 1, 1, ⟨0, 0⟩, 5, ⟨0, 0⟩, 0, true⟩).joint.m_limitState
      = LimitState.equalLimits := by
  exact (claim_C2 _ _ _ _ _ _ rfl (by norm_num) (by rw [abs_of_nonneg] <;> norm_num)).1

/-- Claim C4: for every distance joint with `frequencyHz > 0` (soft mode),
`solvePositionConstraints` returns `true` immediately and leaves both
bodies' working positions and angles completely unchanged — it returns the
two body states untouched. -/
theorem claim_C4 (F : MathFns) (S : Settings) (j : DistanceJoint)
    (bA bB : BodyState) (h : 0 < j.m_frequencyHz) :
    DistanceJoint.solvePositionConstraints F S j bA bB = ⟨bA, bB, true⟩ := by
  unfold DistanceJoint.solvePositionConstraints
  rw [if_pos h]

/-- Witness for claim C4: a concrete soft distance joint leaves a concrete
body pair untouched and reports success. -/
theorem claim_C4_witness :
    DistanceJoint.solvePositionConstraints ⟨fun _ => 1, fun _ => 0, fun _ => 0, 0, 3⟩
      ⟨1/200, 1/50, 1/5, 1⟩
      ⟨⟨0, 0⟩, ⟨0, 0⟩, 10, 2, 1/2, 7, 0, 0, ⟨1, 0⟩, ⟨0, 0⟩, ⟨0, 0⟩, ⟨0, 0⟩, ⟨0, 0⟩,
       1, 1, 1, 1, 1/2⟩
      ⟨⟨⟨0, 0⟩, ⟨0, 1⟩⟩, ⟨0, 0⟩, 1, 1, ⟨1, 2⟩, 3, ⟨4, 5⟩, 6, true⟩
      ⟨⟨⟨0, 0⟩, ⟨0, 1⟩⟩, ⟨0, 0⟩, 1, 1, ⟨7, 8⟩, 9, ⟨1, 1⟩, 2, true⟩
    = ⟨⟨⟨⟨0, 0⟩, ⟨0, 1⟩⟩, ⟨0, 0⟩, 1, 1, ⟨1, 2⟩, 3, ⟨4, 5⟩, 6, true⟩,
       ⟨⟨⟨0, 0⟩, ⟨0, 1⟩⟩, ⟨0, 0⟩, 1, 1, ⟨7, 8⟩, 9, ⟨1, 1⟩, 2, true⟩, true⟩ := by
  exact claim_C4 _ _ _ _ _ (by norm_num)

/-- Claim C8: constructing a distance joint with an explicit `length` makes
`getLength` return exactly that value; constructing it without `length`
makes `getLength` return the world-space distance between the two anchor
points at construction time. -/
theorem claim_C8 (F : MathFns) (dfn : DistanceJointDef) (bodyA bodyB : BodyState)
    (anchorA anchorB : Option Vec2) :
    (∀ L, dfn.length = some L →
      DistanceJoint.getLength (DistanceJoint.construct F dfn bodyA bodyB anchorA anchorB) = L) ∧
    (dfn.length = none →
      DistanceJoint.getLength (DistanceJoint.construct F dfn bodyA bodyB anchorA anchorB)
        = Vec2.distance F
            (Body.getWorldPoint bodyA
              (DistanceJoint.construct F dfn bodyA bodyB anchorA anchorB).m_localAnchorA)
            (Body.getWorldPoint bodyB
              (DistanceJoint.construct F dfn bodyA bodyB anchorA anchorB).m_localAnchorB)) := by
  constructor
  · intro L hL
    unfold DistanceJoint.getLength DistanceJoint.construct
    rw [hL]
  · intro hnone
    unfold DistanceJoint.getLength DistanceJoint.construct
    rw [hnone]

/-- Witness for claim C8: an explicit length 7 is read back exactly, and a
def with no length stores the anchor-to-anchor distance as computed by the
square-root primitive (here, of the squared distance 25). -/
theorem claim_C8_witness :
    DistanceJoint.getLength (DistanceJoint.construct
      ⟨fun _ => 1, fun _ => 0, fun q => if q = 25 then 5 else 0, 0, 3⟩
      ⟨some ⟨0, 0⟩, some ⟨3, 4⟩, some 7, none, none⟩
      ⟨⟨⟨0, 0⟩, ⟨0, 1⟩⟩, ⟨0, 0⟩, 1, 1, ⟨0, 0⟩, 0, ⟨0, 0⟩, 0, true⟩
      ⟨⟨⟨0, 0⟩, ⟨0, 1⟩⟩, ⟨0, 0⟩, 1, 1, ⟨0, 0⟩, 0, ⟨0, 0⟩, 0, true⟩ none none) = 7 ∧
    DistanceJoint.getLength (DistanceJoint.construct
      ⟨fun _ => 1, fun _ => 0, fun q => if q = 25 then 5 else 0, 0, 3⟩
      ⟨some ⟨0, 0⟩, some ⟨3, 4⟩, none, none, none⟩
      ⟨⟨⟨0, 0⟩, ⟨0, 1⟩⟩, ⟨0, 0⟩, 1, 1, ⟨0, 0⟩, 0, ⟨0, 0⟩, 0, true⟩
      ⟨⟨⟨0, 0⟩, ⟨0, 1⟩⟩, ⟨0, 0⟩, 1, 1, ⟨0, 0⟩, 0, ⟨0, 0⟩, 0, true⟩ none none) = 5 := by
  constructor
  · exact (claim_C8 _ _ _ _ _ _).1 7 rfl
  · rw [(claim_C8 ⟨fun _ => 1, fun _ => 0, fun q => if q = 25 then 5 else 0, 0, 3⟩
      ⟨some ⟨0, 0⟩, some ⟨3, 4⟩, none, none, none⟩
      ⟨⟨⟨0, 0⟩, ⟨0, 1⟩⟩, ⟨0, 0⟩, 1, 1, ⟨0, 0⟩, 0, ⟨0, 0⟩, 0, true⟩
      ⟨⟨⟨0, 0⟩, ⟨0, 1⟩⟩, ⟨0, 0⟩, 1, 1, ⟨0, 0⟩, 0, ⟨0, 0⟩, 0, true⟩ none none).2 rfl]
    norm_num [DistanceJoint.construct, Body.getWorldPoint, Body.getLocalPoint,
      Transform.mulVec2, Transform.mulTVec2, Rot.mulVec2, Rot.mulTVec2,
      Vec2.distance, Vec2.distanceSquared, Vec2.add, Vec2.sub, Vec2.zeroV]

/-- Claim C10: for every revolute joint, `enableLimit` with a different
flag, or `setLimits` with different bounds, zeroes the accumulated limit
impulse `m_impulse.z` and wakes both bodies; calling them with the current
flag / bounds leaves the joint and both bodies entirely unchanged. -/
theorem claim_C10 (j : RevoluteJoint) (bA bB : BodyState) (flag : Bool)
    (assertEnabled : Bool) (lower upper : ℚ) :
    (flag ≠ j.m_enableLimit →
      (RevoluteJoint.enableLimit flag j bA bB).1.m_impulse.z = 0 ∧
      (RevoluteJoint.enableLimit flag j bA bB).1.m_impulse.x = j.m_impulse.x ∧
      (RevoluteJoint.enableLimit flag j bA bB).1.m_impulse.y = j.m_impulse.y ∧
      (RevoluteJoint.enableLimit flag j bA bB).1.m_enableLimit = flag ∧
      (RevoluteJoint.enableLimit flag j bA bB).2.1.awake = true ∧
      (RevoluteJoint.enableLimit flag j bA bB).2.2.awake = true) ∧
    (flag = j.m_enableLimit →
      RevoluteJoint.enableLimit flag j bA bB = (j, bA, bB)) ∧
    ((lower ≠ j.m_lowerAngle ∨ upper ≠ j.m_upperAngle) →
      (assertEnabled = false ∨ lower ≤ upper) →
      ∃ out, RevoluteJoint.setLimits assertEnabled lower upper j bA bB = Except.ok out ∧
        out.1.m_impulse.z = 0 ∧ out.1.m_impulse.x = j.m_impulse.x ∧
        out.1.m_impulse.y = j.m_impulse.y ∧
        out.1.m_lowerAngle = lower ∧ out.1.m_upperAngle = upper ∧
        out.2.1.awake = true ∧ out.2.2.awake = true) ∧
    (lower = j.m_lowerAngle → upper = j.m_upperAngle →
      (assertEnabled = false ∨ lower ≤ upper) →
      RevoluteJoint.setLimits assertEnabled lower upper j bA bB
        = Except.ok (j, bA, bB)) := by
  have hassert : ∀ (h : assertEnabled = false ∨ lower ≤ upper),
      ¬(assertEnabled = true ∧ ¬(lower ≤ upper)) := by
    rintro (h | h) ⟨h1, h2⟩
    · rw [h] at h1; cases h1
    · exact h2 h
  refine ⟨?_, ?_, ?_, ?_⟩
  · intro hne
    unfold RevoluteJoint.enableLimit
    rw [if_pos hne]
    exact ⟨rfl, rfl, rfl, rfl, rfl, rfl⟩
  · intro heq
    unfold RevoluteJoint.enableLimit
    rw [if_neg (by simp [heq])]
  · intro hne hok
    unfold RevoluteJoint.setLimits
    rw [if_neg (hassert hok), if_pos hne]
    exact ⟨_, rfl, rfl, rfl, rfl, rfl, rfl, rfl, rfl⟩
  · intro hlo hup hok
    unfold RevoluteJoint.setLimits
    rw [if_neg (hassert hok), if_neg (by simp [hlo, hup])]

/-- Witness for claim C10: on a concrete joint with accumulated impulse
`(1, 2, 3)`, flipping the limit flag zeroes the `z` impulse and wakes the
bodies, while re-calling with the current flag and the current bounds
changes nothing. -/
theorem claim_C10_witness :
    ((RevoluteJoint.enableLimit true
      ⟨⟨0, 0⟩, ⟨0, 0⟩, 0, ⟨1, 2, 3⟩, 0, 0, 1, 0, 0, false, false,
       ⟨0, 0⟩, ⟨0, 0⟩, ⟨0, 0⟩, ⟨0, 0⟩, 0, 0, 0, 0,
       ⟨⟨0, 0, 0⟩, ⟨0, 0, 0⟩, ⟨0, 0, 0⟩⟩, 0, LimitState.inactiveLimit⟩
      ⟨⟨⟨0, 0⟩, ⟨0, 1⟩⟩, ⟨0, 0⟩, 1, 1, ⟨0, 0⟩, 0, ⟨0, 0⟩, 0, false⟩
      ⟨⟨⟨0, 0⟩, ⟨0, 1⟩⟩, ⟨0, 0⟩, 1, 1, ⟨0, 0⟩, 0, ⟨0, 0⟩, 0, false⟩).1.m_impulse.z = 0) ∧
    (RevoluteJoint.setLimits true 0 1
      ⟨⟨0, 0⟩, ⟨0, 0⟩, 0, ⟨1, 2, 3⟩, 0, 0, 1, 0, 0, false, false,
       ⟨0, 0⟩, ⟨0, 0⟩, ⟨0, 0⟩, ⟨0, 0⟩, 0, 0, 0, 0,
       ⟨⟨0, 0, 0⟩, ⟨0, 0, 0⟩, ⟨0, 0, 0⟩⟩, 0, LimitState.inactiveLimit⟩
      ⟨⟨⟨0, 0⟩, ⟨0, 1⟩⟩, ⟨0, 0⟩, 1, 1, ⟨0, 0⟩, 0, ⟨0, 0⟩, 0, false⟩
      ⟨⟨⟨0, 0⟩, ⟨0, 1⟩⟩, ⟨0, 0⟩, 1, 1, ⟨0, 0⟩, 0, ⟨0, 0⟩, 0, false⟩
      = Except.ok
        (⟨⟨0, 0⟩, ⟨0, 0⟩, 0, ⟨1, 2, 3⟩, 0, 0, 1, 0, 0, false, false,
          ⟨0, 0⟩, ⟨0, 0⟩, ⟨0, 0⟩, ⟨0, 0⟩, 0, 0, 0, 0,
          ⟨⟨0, 0, 0⟩, ⟨0, 0, 0⟩, ⟨0, 0, 0⟩⟩, 0, LimitState.inactiveLimit⟩,
         ⟨⟨⟨0, 0⟩, ⟨0, 1⟩⟩, ⟨0, 0⟩, 1, 1, ⟨0, 0⟩, 0, ⟨0, 0⟩, 0, false⟩,
         ⟨⟨⟨0, 0⟩, ⟨0, 1⟩⟩, ⟨0, 0⟩, 1, 1, ⟨0, 0⟩, 0, ⟨0, 0⟩, 0, false⟩)) := by
  constructor
  · exact ((claim_C10 _ _ _ true true 0 1).1 (by simp)).1
  · exact (claim_C10 _ _ _ true true 0 1).2.2.2 rfl rfl (Or.inr (by norm_num))

/-- Claim C9 (code evaluation at the failing input): constructing a pulley
joint from a definition object alone — with a perfectly valid configured
ratio of 1 and explicit segment lengths — trips the fatal assertion when
assertion checks are enabled, because the assertion tests the absent
POSITIONAL ratio argument instead of the configured ratio; passing the same
valid ratio positionally succeeds. -/
theorem claim_C9_code_eval :
    (PulleyJoint.construct ⟨fun _ => 1, fun _ => 0, fun _ => 0, 1/1000000000, 3⟩ true
      ⟨some ⟨-1, 1⟩, some ⟨1, 1⟩, some ⟨-1, 0⟩, some ⟨1, 0⟩, some 1, some 1, 1⟩
      ⟨⟨⟨0, 0⟩, ⟨0, 1⟩⟩, ⟨0, 0⟩, 1, 1, ⟨0, 0⟩, 0, ⟨0, 0⟩, 0, true⟩
      ⟨⟨⟨0, 0⟩, ⟨0, 1⟩⟩, ⟨0, 0⟩, 1, 1, ⟨0, 0⟩, 0, ⟨0, 0⟩, 0, true⟩
      none none none none none = Except.error ()) ∧
    (PulleyJoint.construct ⟨fun _ => 1, fun _ => 0, fun _ => 0, 1/1000000000, 3⟩ true
      ⟨some ⟨-1, 1⟩, some ⟨1, 1⟩, some ⟨-1, 0⟩, some ⟨1, 0⟩, some 1, some 1, 1⟩
      ⟨⟨⟨0, 0⟩, ⟨0, 1⟩⟩, ⟨0, 0⟩, 1, 1, ⟨0, 0⟩, 0, ⟨0, 0⟩, 0, true⟩
      ⟨⟨⟨0, 0⟩, ⟨0, 1⟩⟩, ⟨0, 0⟩, 1, 1, ⟨0, 0⟩, 0, ⟨0, 0⟩, 0, true⟩
      none none none none (some 1) ≠ Except.error ()) := by
  constructor
  · norm_num [PulleyJoint.construct]
  · norm_num [PulleyJoint.construct]
    intro hc
    cases hc

/-- Claim C3, counterexample: a revolute joint refutes the claim that
`initVelocityConstraints` with warm starting multiplies the impulses
persisted from the previous step by `dtRatio` (here 1) and applies exactly
that.  With the motor disabled, a persisted motor impulse of 1 is zeroed
(not scaled); with the limit newly entering the lower-limit state, a
persisted limit impulse `z = 3` is zeroed (not scaled). -/
theorem claim_C3_counterexample :
    (RevoluteJoint.initVelocityConstraints ⟨fun _ => 1, fun _ => 0, fun _ => 0, 0, 3⟩
      ⟨1/200, 1/100, 1/5, 2/45⟩ ⟨1/60, 1, true⟩
      ⟨⟨0, 0⟩, ⟨0, 0⟩, 0, ⟨0, 0, 0⟩, 1, 0, 1, 0, 0, false, false,
       ⟨0, 0⟩, ⟨0, 0⟩, ⟨0, 0⟩, ⟨0, 0⟩, 0, 0, 0, 0,
       ⟨⟨0, 0, 0⟩, ⟨0, 0, 0⟩, ⟨0, 0, 0⟩⟩, 0, LimitState.inactiveLimit⟩
      ⟨⟨⟨0, 0⟩, ⟨0, 1⟩⟩, ⟨0, 0⟩, 1, 1, ⟨0, 0⟩, 0, ⟨0, 0⟩, 0, true⟩
      ⟨⟨⟨0, 0⟩, ⟨0, 1⟩⟩, ⟨0, 0⟩, 1, 1, ⟨0, 0⟩, 0, ⟨0, 0⟩, 0, true⟩).joint.m_motorImpulse
      ≠ (1 : ℚ) * 1 ∧
    (RevoluteJoint.initVelocityConstraints ⟨fun _ => 1, fun _ => 0, fun _ => 0, 0, 3⟩
      ⟨1/200, 1/100, 1/5, 2/45⟩ ⟨1/60, 1, true⟩
      ⟨⟨0, 0⟩, ⟨0, 0⟩, 0, ⟨0, 0, 3⟩, 0, 0, 1, 0, 0, true, false,
       ⟨0, 0⟩, ⟨0, 0⟩, ⟨0, 0⟩, ⟨0, 0⟩, 0, 0, 0, 0,
       ⟨⟨0, 0, 0⟩, ⟨0, 0, 0⟩, ⟨0, 0, 0⟩⟩, 0, LimitState.inactiveLimit⟩
      ⟨⟨⟨0, 0⟩, ⟨0, 1⟩⟩, ⟨0, 0⟩, 1, 1, ⟨0, 0⟩, 0, ⟨0, 0⟩, 0, true⟩
      ⟨⟨⟨0, 0⟩, ⟨0, 1⟩⟩, ⟨0, 0⟩, 1, 1, ⟨0, 0⟩, 0, ⟨0, 0⟩, 0, true⟩).joint.m_impulse.z
      ≠ (1 : ℚ) * 3 := by
  constructor
  · norm_num [RevoluteJoint.initVelocityConstraints, RevoluteJoint.ivcPrep,
      Rot.neo, Rot.mulVec2, Vec2.sub, Vec2.add, Vec2.mul, Vec2.cross,
      Vec2.addMul, Vec2.subMul, Vec3.mul, Vec2.zeroV, Vec3.zeroV, abs_one]
  · norm_num [RevoluteJoint.initVelocityConstraints, RevoluteJoint.ivcPrep,
      Rot.neo, Rot.mulVec2, Vec2.sub, Vec2.add, Vec2.mul, Vec2.cross,
      Vec2.addMul, Vec2.subMul, Vec3.mul, Vec2.zeroV, Vec3.zeroV, abs_one]
    decide

/-- The distance-joint preparation stage does not touch the accumulated
impulse and copies the body mass data verbatim. -/
theorem DistanceJoint_ivcPrep_fields (F : MathFns) (S : Settings) (step : TimeStep)
    (j : DistanceJoint) (bA bB : BodyState) :
    (DistanceJoint.ivcPrep F S step j bA bB).m_impulse = j.m_impulse ∧
    (DistanceJoint.ivcPrep F S step j bA bB).m_invMassA = bA.invMass ∧
    (DistanceJoint.ivcPrep F S step j bA bB).m_invMassB = bB.invMass ∧
    (DistanceJoint.ivcPrep F S step j bA bB).m_invIA = bA.invI ∧
    (DistanceJoint.ivcPrep F S step j bA bB).m_invIB = bB.invI := by
  unfold DistanceJoint.ivcPrep
  split <;> exact ⟨rfl, rfl, rfl, rfl, rfl⟩

/-- Warm-start behavior of `DistanceJoint.initVelocityConstraints`: with
warm starting the persisted accumulated impulse is scaled by `dtRatio` and
exactly that impulse is applied along the freshly computed axis; without it
the accumulated impulse is reset to zero and the velocities are left
untouched. -/
theorem distance_ivc_warmstart (F : MathFns) (S : Settings) (step : TimeStep)
    (j : DistanceJoint) (bA bB : BodyState) :
    (step.warmStarting = true →
      (DistanceJoint.initVelocityConstraints F S step j bA bB).joint.m_impulse
        = step.dtRatio * j.m_impulse ∧
      (DistanceJoint.initVelocityConstraints F S step j bA bB).bodyA.v
        = Vec2.subMul bA.v bA.invMass
            (Vec2.mul (step.dtRatio * j.m_impulse) (DistanceJoint.ivcPrep F S step j bA bB).m_u) ∧
      (DistanceJoint.initVelocityConstraints F S step j bA bB).bodyA.w
        = bA.w - bA.invI * Vec2.cross (DistanceJoint.ivcPrep F S step j bA bB).m_rA
            (Vec2.mul (step.dtRatio * j.m_impulse) (DistanceJoint.ivcPrep F S step j bA bB).m_u) ∧
      (DistanceJoint.initVelocityConstraints F S step j bA bB).bodyB.v
        = Vec2.addMul bB.v bB.invMass
            (Vec2.mul (step.dtRatio * j.m_impulse) (DistanceJoint.ivcPrep F S step j bA bB).m_u) ∧
      (DistanceJoint.initVelocityConstraints F S step j bA bB).bodyB.w
        = bB.w + bB.invI * Vec2.cross (DistanceJoint.ivcPrep F S step j bA bB).m_rB
            (Vec2.mul (step.dtRatio * j.m_impulse) (DistanceJoint.ivcPrep F S step j bA bB).m_u)) ∧
    (step.warmStarting = false →
      (DistanceJoint.initVelocityConstraints F S step j bA bB).joint.m_impulse = 0 ∧
      (DistanceJoint.initVelocityConstraints F S step j bA bB).bodyA = bA ∧
      (DistanceJoint.initVelocityConstraints F S step j bA bB).bodyB = bB) := by
  obtain ⟨h1, h2, h3, h4, h5⟩ := DistanceJoint_ivcPrep_fields F S step j bA bB
  constructor
  · intro hw
    unfold DistanceJoint.initVelocityConstraints
    rw [if_pos hw]
    refine ⟨?_, ?_, ?_, ?_, ?_⟩
    · dsimp only; rw [h1, mul_comm]
    · dsimp only; rw [h1, h2, mul_comm j.m_impulse step.dtRatio]
    · dsimp only; rw [h1, h4, mul_comm j.m_impulse step.dtRatio]
    · dsimp only; rw [h1, h3, mul_comm j.m_impulse step.dtRatio]
    · dsimp only; rw [h1, h5, mul_comm j.m_impulse step.dtRatio]
  · intro hw
    unfold DistanceJoint.initVelocityConstraints
    rw [if_neg (by rw [hw]; exact Bool.false_ne_true)]
    exact ⟨rfl, rfl, rfl⟩

/-- Warm-start behavior of `RevoluteJoint.initVelocityConstraints`: with
warm starting, the impulses that get scaled by `dtRatio` and applied are
the ones left after the same call's motor/limit gating (the preparation
stage), not necessarily the impulses persisted from the previous step;
without warm starting both accumulated impulses are reset to zero and the
velocities are left untouched. -/
theorem revolute_ivc_warmstart (F : MathFns) (S : Settings) (step : TimeStep)
    (j : RevoluteJoint) (bA bB : BodyState) :
    (step.warmStarting = true →
      (RevoluteJoint.initVelocityConstraints F S step j bA bB).joint.m_impulse
        = Vec3.mul step.dtRatio (RevoluteJoint.ivcPrep F S j bA bB).m_impulse ∧
      (RevoluteJoint.initVelocityConstraints F S step j bA bB).joint.m_motorImpulse
        = (RevoluteJoint.ivcPrep F S j bA bB).m_motorImpulse * step.dtRatio ∧
      (RevoluteJoint.initVelocityConstraints F S step j bA bB).bodyA.v
        = Vec2.subMul bA.v bA.invMass
            ⟨(Vec3.mul step.dtRatio (RevoluteJoint.ivcPrep F S j bA bB).m_impulse).x,
             (Vec3.mul step.dtRatio (RevoluteJoint.ivcPrep F S j bA bB).m_impulse).y⟩ ∧
      (RevoluteJoint.initVelocityConstraints F S step j bA bB).bodyA.w
        = bA.w - bA.invI * (Vec2.cross (RevoluteJoint.ivcPrep F S j bA bB).m_rA
            ⟨(Vec3.mul step.dtRatio (RevoluteJoint.ivcPrep F S j bA bB).m_impulse).x,
             (Vec3.mul step.dtRatio (RevoluteJoint.ivcPrep F S j bA bB).m_impulse).y⟩
            + (RevoluteJoint.ivcPrep F S j bA bB).m_motorImpulse * step.dtRatio
            + (Vec3.mul step.dtRatio (RevoluteJoint.ivcPrep F S j bA bB).m_impulse).z) ∧
      (RevoluteJoint.initVelocityConstraints F S step j bA bB).bodyB.v
        = Vec2.addMul bB.v bB.invMass
            ⟨(Vec3.mul step.dtRatio (RevoluteJoint.ivcPrep F S j bA bB).m_impulse).x,
             (Vec3.mul step.dtRatio (RevoluteJoint.ivcPrep F S j bA bB).m_impulse).y⟩ ∧
      (RevoluteJoint.initVelocityConstraints F S step j bA bB).bodyB.w
        = bB.w + bB.invI * (Vec2.cross (RevoluteJoint.ivcPrep F S j bA bB).m_rB
            ⟨(Vec3.mul step.dtRatio (RevoluteJoint.ivcPrep F S j bA bB).m_impulse).x,
             (Vec3.mul step.dtRatio (RevoluteJoint.ivcPrep F S j bA bB).m_impulse).y⟩
            + (RevoluteJoint.ivcPrep F S j bA bB).m_motorImpulse * step.dtRatio
            + (Vec3.mul step.dtRatio (RevoluteJoint.ivcPrep F S j bA bB).m_impulse).z)) ∧
    (step.warmStarting = false →
      (RevoluteJoint.initVelocityConstraints F S step j bA bB).joint.m_impulse = Vec3.zeroV ∧
      (RevoluteJoint.initVelocityConstraints F S step j bA bB).joint.m_motorImpulse = 0 ∧
      (RevoluteJoint.initVelocityConstraints F S step j bA bB).bodyA = bA ∧
      (RevoluteJoint.initVelocityConstraints F S step j bA bB).bodyB = bB) := by
  constructor
  · intro hw
    unfold RevoluteJoint.initVelocityConstraints
    rw [if_pos hw]
    exact ⟨rfl, rfl, rfl, rfl, rfl, rfl⟩
  · intro hw
    unfold RevoluteJoint.initVelocityConstraints
    rw [if_neg (by rw [hw]; exact Bool.false_ne_true)]
    exact ⟨rfl, rfl, rfl, rfl⟩

/-- Warm-start behavior of `PulleyJoint.initVelocityConstraints`: with warm
starting the persisted accumulated impulse is scaled by `dtRatio` and
exactly that impulse is applied along the two pulley axes (`ratio`-scaled
on body B); without it the accumulated impulse is reset to zero and the
velocities are left untouched. -/
theorem pulley_ivc_warmstart (F : MathFns) (S : Settings) (step : TimeStep)
    (j : PulleyJoint) (bA bB : BodyState) :
    (step.warmStarting = true →
      (PulleyJoint.initVelocityConstraints F S step j bA bB).joint.m_impulse
        = j.m_impulse * step.dtRatio ∧
      (PulleyJoint.initVelocityConstraints F S step j bA bB).bodyA.v
        = Vec2.addMul bA.v bA.invMass
            (Vec2.mul (-(j.m_impulse * step.dtRatio)) (PulleyJoint.ivcPrep F S j bA bB).m_uA) ∧
      (PulleyJoint.initVelocityConstraints F S step j bA bB).bodyA.w
        = bA.w + bA.invI * Vec2.cross (PulleyJoint.ivcPrep F S j bA bB).m_rA
            (Vec2.mul (-(j.m_impulse * step.dtRatio)) (PulleyJoint.ivcPrep F S j bA bB).m_uA) ∧
      (PulleyJoint.initVelocityConstraints F S step j bA bB).bodyB.v
        = Vec2.addMul bB.v bB.invMass
            (Vec2.mul (-j.m_ratio * (j.m_impulse * step.dtRatio)) (PulleyJoint.ivcPrep F S j bA bB).m_uB) ∧
      (PulleyJoint.initVelocityConstraints F S step j bA bB).bodyB.w
        = bB.w + bB.invI * Vec2.cross (PulleyJoint.ivcPrep F S j bA bB).m_rB
            (Vec2.mul (-j.m_ratio * (j.m_impulse * step.dtRatio)) (PulleyJoint.ivcPrep F S j bA bB).m_uB)) ∧
    (step.warmStarting = false →
      (PulleyJoint.initVelocityConstraints F S step j bA bB).joint.m_impulse = 0 ∧
      (PulleyJoint.initVelocityConstraints F S step j bA bB).bodyA = bA ∧
      (PulleyJoint.initVelocityConstraints F S step j bA bB).bodyB = bB) := by
  constructor
  · intro hw
    unfold PulleyJoint.initVelocityConstraints
    rw [if_pos hw]
    exact ⟨rfl, rfl, rfl, rfl, rfl⟩
  · intro hw
    unfold PulleyJoint.initVelocityConstraints
    rw [if_neg (by rw [hw]; exact Bool.false_ne_true)]
    exact ⟨rfl, rfl, rfl⟩

/-- Claim C3 (amended): for distance and pulley joints,
`initVelocityConstraints` with `warmStarting` multiplies the accumulated
impulse persisted from the previous step by `dtRatio` and applies exactly
that scaled impulse to the two bodies' working velocities; for the
revolute joint the impulses scaled and applied are those remaining after
the same call's motor/limit gating (the motor impulse is zeroed when the
motor is disabled or rotation is fixed, and the accumulated limit impulse
`z` is zeroed on a limit-state transition).  With `warmStarting` false all
three joints reset the accumulated impulse(s) to zero and apply no impulse
to the velocities. -/
theorem claim_C3_amended :
    (∀ (F : MathFns) (S : Settings) (step : TimeStep) (j : DistanceJoint) (bA bB : BodyState),
      (step.warmStarting = true →
        (DistanceJoint.initVelocityConstraints F S step j bA bB).joint.m_impulse
          = step.dtRatio * j.m_impulse ∧
        (DistanceJoint.initVelocityConstraints F S step j bA bB).bodyA.v
          = Vec2.subMul bA.v bA.invMass
              (Vec2.mul (step.dtRatio * j.m_impulse) (DistanceJoint.ivcPrep F S step j bA bB).m_u) ∧
        (DistanceJoint.initVelocityConstraints F S step j bA bB).bodyA.w
          = bA.w - bA.invI * Vec2.cross (DistanceJoint.ivcPrep F S step j bA bB).m_rA
              (Vec2.mul (step.dtRatio * j.m_impulse) (DistanceJoint.ivcPrep F S step j bA bB).m_u) ∧
        (DistanceJoint.initVelocityConstraints F S step j bA bB).bodyB.v
          = Vec2.addMul bB.v bB.invMass
              (Vec2.mul (step.dtRatio * j.m_impulse) (DistanceJoint.ivcPrep F S step j bA bB).m_u) ∧
        (DistanceJoint.initVelocityConstraints F S step j bA bB).bodyB.w
          = bB.w + bB.invI * Vec2.cross (DistanceJoint.ivcPrep F S step j bA bB).m_rB
              (Vec2.mul (step.dtRatio * j.m_impulse) (DistanceJoint.ivcPrep F S step j bA bB).m_u)) ∧
      (step.warmStarting = false →
        (DistanceJoint.initVelocityConstraints F S step j bA bB).joint.m_impulse = 0 ∧
        (DistanceJoint.initVelocityConstraints F S step j bA bB).bodyA = bA ∧
        (DistanceJoint.initVelocityConstraints F S step j bA bB).bodyB = bB)) ∧
    (∀ (F : MathFns) (S : Settings) (step : TimeStep) (j : RevoluteJoint) (bA bB : BodyState),
      (step.warmStarting = true →
        (RevoluteJoint.initVelocityConstraints F S step j bA bB).joint.m_impulse
          = Vec3.mul step.dtRatio (RevoluteJoint.ivcPrep F S j bA bB).m_impulse ∧
        (RevoluteJoint.initVelocityConstraints F S step j bA bB).joint.m_motorImpulse
          = (RevoluteJoint.ivcPrep F S j bA bB).m_motorImpulse * step.dtRatio) ∧
      (step.warmStarting = false →
        (RevoluteJoint.initVelocityConstraints F S step j bA bB).joint.m_impulse = Vec3.zeroV ∧
        (RevoluteJoint.initVelocityConstraints F S step j bA bB).joint.m_motorImpulse = 0 ∧
        (RevoluteJoint.initVelocityConstraints F S step j bA bB).bodyA = bA ∧
        (RevoluteJoint.initVelocityConstraints F S step j bA bB).bodyB = bB)) ∧
    (∀ (F : MathFns) (S : Settings) (step : TimeStep) (j : PulleyJoint) (bA bB : BodyState),
      (step.warmStarting = true →
        (PulleyJoint.initVelocityConstraints F S step j bA bB).joint.m_impulse
          = j.m_impulse * step.dtRatio ∧
        (PulleyJoint.initVelocityConstraints F S step j bA bB).bodyA.v
          = Vec2.addMul bA.v bA.invMass
              (Vec2.mul (-(j.m_impulse * step.dtRatio)) (PulleyJoint.ivcPrep F S j bA bB).m_uA) ∧
        (PulleyJoint.initVelocityConstraints F S step j bA bB).bodyB.v
          = Vec2.addMul bB.v bB.invMass
              (Vec2.mul (-j.m_ratio * (j.m_impulse * step.dtRatio)) (PulleyJoint.ivcPrep F S j bA bB).m_uB)) ∧
      (step.warmStarting = false →
        (PulleyJoint.initVelocityConstraints F S step j bA bB).joint.m_impulse = 0 ∧
        (PulleyJoint.initVelocityConstraints F S step j bA bB).bodyA = bA ∧
        (PulleyJoint.initVelocityConstraints F S step j bA bB).bodyB = bB)) := by
  refine ⟨?_, ?_, ?_⟩
  · intro F S step j bA bB
    exact distance_ivc_warmstart F S step j bA bB
  · intro F S step j bA bB
    obtain ⟨hwarm, hcold⟩ := revolute_ivc_warmstart F S step j bA bB
    constructor
    · intro hw
      obtain ⟨a, b, _⟩ := hwarm hw
      exact ⟨a, b⟩
    · exact hcold
  · intro F S step j bA bB
    obtain ⟨hwarm, hcold⟩ := pulley_ivc_warmstart F S step j bA bB
    constructor
    · intro hw
      obtain ⟨a, b, _, c, _⟩ := hwarm hw
      exact ⟨a, b, c⟩
    · exact hcold

/-- Witness for claim C3 (amended): on a concrete distance joint with
persisted impulse 5 and `dtRatio = 3`, warm starting stores `3 * 5 = 15`;
on a concrete pulley joint with persisted impulse 2, `warmStarting = false`
resets the impulse to 0 and leaves the bodies untouched. -/
theorem claim_C3_amended_witness :
    (DistanceJoint.initVelocityConstraints ⟨fun _ => 1, fun _ => 0, fun _ => 0, 0, 3⟩
      ⟨1/200, 1/100, 1/5, 2/45⟩ ⟨1/60, 3, true⟩
      ⟨⟨0, 0⟩, ⟨0, 0⟩, 1, 0, 0, 5, 0, 0, ⟨0, 0⟩, ⟨0, 0⟩, ⟨0, 0⟩, ⟨0, 0⟩, ⟨0, 0⟩,
       0, 0, 0, 0, 0⟩
      ⟨⟨⟨0, 0⟩, ⟨0, 1⟩⟩, ⟨0, 0⟩, 1, 1, ⟨0, 0⟩, 0, ⟨0, 0⟩, 0, true⟩
      ⟨⟨⟨0, 0⟩, ⟨0, 1⟩⟩, ⟨0, 0⟩, 1, 1, ⟨2, 0⟩, 0, ⟨0, 0⟩, 0, true⟩).joint.m_impulse = 15 ∧
    (PulleyJoint.initVelocityConstraints ⟨fun _ => 1, fun _ => 0, fun _ => 0, 0, 3⟩
      ⟨1/200, 1/100, 1/5, 2/45⟩ ⟨1/60, 3, false⟩
      ⟨⟨-1, 1⟩, ⟨1, 1⟩, ⟨-1, 0⟩, ⟨1, 0⟩, 1, 1, 1, 2, 2, ⟨0, 0⟩, ⟨0, 0⟩, ⟨0, 0⟩, ⟨0, 0⟩,
       ⟨0, 0⟩, ⟨0, 0⟩, 0, 0, 0, 0, 0⟩
      ⟨⟨⟨0, 0⟩, ⟨0, 1⟩⟩, ⟨0, 0⟩, 1, 1, ⟨0, 0⟩, 0, ⟨0, 0⟩, 0, true⟩
      ⟨⟨⟨0, 0⟩, ⟨0, 1⟩⟩, ⟨0, 0⟩, 1, 1, ⟨2, 0⟩, 0, ⟨0, 0⟩, 0, true⟩).joint.m_impulse = 0 := by
  constructor
  · rw [((claim_C3_amended.1 ⟨fun _ => 1, fun _ => 0, fun _ => 0, 0, 3⟩
      ⟨1/200, 1/100, 1/5, 2/45⟩ ⟨1/60, 3, true⟩
      ⟨⟨0, 0⟩, ⟨0, 0⟩, 1, 0, 0, 5, 0, 0, ⟨0, 0⟩, ⟨0, 0⟩, ⟨0, 0⟩, ⟨0, 0⟩, ⟨0, 0⟩,
       0, 0, 0, 0, 0⟩
      ⟨⟨⟨0, 0⟩, ⟨0, 1⟩⟩, ⟨0, 0⟩, 1, 1, ⟨0, 0⟩, 0, ⟨0, 0⟩, 0, true⟩
      ⟨⟨⟨0, 0⟩, ⟨0, 1⟩⟩, ⟨0, 0⟩, 1, 1, ⟨2, 0⟩, 0, ⟨0, 0⟩, 0, true⟩).1 rfl).1]
    norm_num
  · exact ((claim_C3_amended.2.2 ⟨fun _ => 1, fun _ => 0, fun _ => 0, 0, 3⟩
      ⟨1/200, 1/100, 1/5, 2/45⟩ ⟨1/60, 3, false⟩
      ⟨⟨-1, 1⟩, ⟨1, 1⟩, ⟨-1, 0⟩, ⟨1, 0⟩, 1, 1, 1, 2, 2, ⟨0, 0⟩, ⟨0, 0⟩, ⟨0, 0⟩, ⟨0, 0⟩,
       ⟨0, 0⟩, ⟨0, 0⟩, 0, 0, 0, 0, 0⟩
      ⟨⟨⟨0, 0⟩, ⟨0, 1⟩⟩, ⟨0, 0⟩, 1, 1, ⟨0, 0⟩, 0, ⟨0, 0⟩, 0, true⟩
      ⟨⟨⟨0, 0⟩, ⟨0, 1⟩⟩, ⟨0, 0⟩, 1, 1, ⟨2, 0⟩, 0, ⟨0, 0⟩, 0, true⟩).2 rfl).1

/-- Claim C5 (amended): the position solvers re-derive the geometric error
at the current working positions, but only the distance joint clamps its
linear error into `[-maxLinearCorrection, maxLinearCorrection]` and only
the revolute joint's ANGULAR limit error is clamped within
`[-maxAngularCorrection, maxAngularCorrection]`; the pulley joint applies
its position correction computed from the UN-clamped error
`constant - lengthA - ratio * lengthB` (and the revolute point-to-point
linear correction is likewise un-clamped). -/
theorem claim_C5_amended :
    (∀ (F : MathFns) (S : Settings) (j : DistanceJoint) (bA bB : BodyState),
      ¬(0 < j.m_frequencyHz) → 0 ≤ S.maxLinearCorrection →
      ∃ rA rB u C,
        rA = Rot.mulSub (Rot.neo F bA.a) j.m_localAnchorA j.m_localCenterA ∧
        rB = Rot.mulSub (Rot.neo F bB.a) j.m_localAnchorB j.m_localCenterB ∧
        u = (Vec2.normalizeWithLen F (Vec2.sub (Vec2.add bB.c rB) (Vec2.add bA.c rA))).2 ∧
        C = MathClamp
          ((Vec2.normalizeWithLen F (Vec2.sub (Vec2.add bB.c rB) (Vec2.add bA.c rA))).1
            - j.m_length)
          (-S.maxLinearCorrection) S.maxLinearCorrection ∧
        |C| ≤ S.maxLinearCorrection ∧
        (DistanceJoint.solvePositionConstraints F S j bA bB).bodyA.c
          = Vec2.subMul bA.c j.m_invMassA (Vec2.mul (-j.m_mass * C) u) ∧
        (DistanceJoint.solvePositionConstraints F S j bA bB).bodyA.a
          = bA.a - j.m_invIA * Vec2.cross rA (Vec2.mul (-j.m_mass * C) u) ∧
        (DistanceJoint.solvePositionConstraints F S j bA bB).bodyB.c
          = Vec2.addMul bB.c j.m_invMassB (Vec2.mul (-j.m_mass * C) u) ∧
        (DistanceJoint.solvePositionConstraints F S j bA bB).bodyB.a
          = bB.a + j.m_invIB * Vec2.cross rB (Vec2.mul (-j.m_mass * C) u)) ∧
    (∀ (S : Settings) (j : RevoluteJoint) (angle : ℚ),
      0 ≤ S.maxAngularCorrection →
      |RevoluteJoint.spcLimitC S j angle| ≤ S.maxAngularCorrection) ∧
    (∀ (F : MathFns) (S : Settings) (j : PulleyJoint) (bA bB : BodyState),
      ∃ rA rB lengthA lengthB uA uB mass C,
        rA = Rot.mulVec2 (Rot.neo F bA.a) (Vec2.sub j.m_localAnchorA j.m_localCenterA) ∧
        rB = Rot.mulVec2 (Rot.neo F bB.a) (Vec2.sub j.m_localAnchorB j.m_localCenterB) ∧
        lengthA = Vec2.len F (Vec2.sub (Vec2.add bA.c j.m_rA) j.m_groundAnchorA) ∧
        lengthB = Vec2.len F (Vec2.sub (Vec2.add bB.c j.m_rB) j.m_groundAnchorB) ∧
        uA = (if lengthA > 10 * S.linearSlop then
          Vec2.mul (1 / lengthA) (Vec2.sub (Vec2.add bA.c j.m_rA) j.m_groundAnchorA)
          else Vec2.zeroV) ∧
        uB = (if lengthB > 10 * S.linearSlop then
          Vec2.mul (1 / lengthB) (Vec2.sub (Vec2.add bB.c j.m_rB) j.m_groundAnchorB)
          else Vec2.zeroV) ∧
        mass = (if j.m_invMassA + j.m_invIA * Vec2.cross rA uA * Vec2.cross rA uA
            + j.m_ratio * j.m_ratio
              * (j.m_invMassB + j.m_invIB * Vec2.cross rB uB * Vec2.cross rB uB) > 0 then
          1 / (j.m_invMassA + j.m_invIA * Vec2.cross rA uA * Vec2.cross rA uA
            + j.m_ratio * j.m_ratio
              * (j.m_invMassB + j.m_invIB * Vec2.cross rB uB * Vec2.cross rB uB))
          else j.m_invMassA + j.m_invIA * Vec2.cross rA uA * Vec2.cross rA uA
            + j.m_ratio * j.m_ratio
              * (j.m_invMassB + j.m_invIB * Vec2.cross rB uB * Vec2.cross rB uB)) ∧
        C = j.m_constant - lengthA - j.m_ratio * lengthB ∧
        (PulleyJoint.solvePositionConstraints F S j bA bB).bodyA.c
          = Vec2.addMul bA.c j.m_invMassA (Vec2.mul (-(-mass * C)) uA) ∧
        (PulleyJoint.solvePositionConstraints F S j bA bB).bodyA.a
          = bA.a + j.m_invIA * Vec2.cross rA (Vec2.mul (-(-mass * C)) uA) ∧
        (PulleyJoint.solvePositionConstraints F S j bA bB).bodyB.c
          = Vec2.addMul bB.c j.m_invMassB (Vec2.mul (-j.m_ratio * (-mass * C)) uB) ∧
        (PulleyJoint.solvePositionConstraints F S j bA bB).bodyB.a
          = bB.a + j.m_invIB * Vec2.cross rB (Vec2.mul (-j.m_ratio * (-mass * C)) uB) ∧
        (PulleyJoint.solvePositionConstraints F S j bA bB).ok
          = decide (|C| < S.linearSlop)) := by
  refine ⟨?_, ?_, ?_⟩
  · intro F S j bA bB hfreq hmax
    unfold DistanceJoint.solvePositionConstraints
    rw [if_neg hfreq]
    refine ⟨_, _, _, _, rfl, rfl, rfl, rfl, ?_, rfl, rfl, rfl, rfl⟩
    have hm := MathClamp_mem
      ((Vec2.normalizeWithLen F (Vec2.sub
        (Vec2.add bB.c (Rot.mulSub (Rot.neo F bB.a) j.m_localAnchorB j.m_localCenterB))
        (Vec2.add bA.c (Rot.mulSub (Rot.neo F bA.a) j.m_localAnchorA j.m_localCenterA)))).1
        - j.m_length)
      (-S.maxLinearCorrection) S.maxLinearCorrection (by linarith)
    exact abs_le.mpr ⟨hm.1, hm.2⟩
  · intro S j angle hmax
    unfold RevoluteJoint.spcLimitC
    split
    · have hm := MathClamp_mem (angle - j.m_lowerAngle)
        (-S.maxAngularCorrection) S.maxAngularCorrection (by linarith)
      exact abs_le.mpr ⟨hm.1, hm.2⟩
    · split
      · have hm := MathClamp_mem (angle - j.m_lowerAngle + S.angularSlop)
          (-S.maxAngularCorrection) 0 (by linarith)
        exact abs_le.mpr ⟨hm.1, le_trans hm.2 hmax⟩
      · split
        · have hm := MathClamp_mem (angle - j.m_upperAngle - S.angularSlop)
            0 S.maxAngularCorrection hmax
          exact abs_le.mpr ⟨le_trans (by linarith) hm.1, hm.2⟩
        · rw [abs_zero]; exact hmax
  · intro F S j bA bB
    unfold PulleyJoint.solvePositionConstraints
    exact ⟨_, _, _, _, _, _, _, _, rfl, rfl, rfl, rfl, rfl, rfl, rfl, rfl,
      rfl, rfl, rfl, rfl, rfl⟩

/-- Claim C5, counterexample: a concrete pulley joint whose re-derived
position error is 1 — five times `maxLinearCorrection = 1/5` — moves body B
by the full un-clamped correction, so its output differs from the
spec-claimed clamped variant. -/
theorem claim_C5_counterexample :
    (PulleyJoint.solvePositionConstraints
      ⟨fun _ => 1, fun _ => 0, fun q => if q = 25 then 5 else if q = 64 then 8 else 0, 0, 3⟩
      ⟨1/200, 1/100, 1/5, 2/45⟩
      ⟨⟨-3, -4⟩, ⟨0, 0⟩, ⟨0, 0⟩, ⟨0, 0⟩, 1, 1, 1, 14, 0, ⟨0, 0⟩, ⟨0, 0⟩, ⟨0, 0⟩, ⟨0, 0⟩,
       ⟨0, 0⟩, ⟨0, 0⟩, 1, 1, 0, 0, 0⟩
      ⟨⟨⟨0, 0⟩, ⟨0, 1⟩⟩, ⟨0, 0⟩, 1, 0, ⟨0, 0⟩, 0, ⟨0, 0⟩, 0, true⟩
      ⟨⟨⟨0, 0⟩, ⟨0, 1⟩⟩, ⟨0, 0⟩, 1, 0, ⟨8, 0⟩, 0, ⟨0, 0⟩, 0, true⟩).bodyB.c
    ≠ (specPulleyClampedSolvePosition
      ⟨fun _ => 1, fun _ => 0, fun q => if q = 25 then 5 else if q = 64 then 8 else 0, 0, 3⟩
      ⟨1/200, 1/100, 1/5, 2/45⟩
      ⟨⟨-3, -4⟩, ⟨0, 0⟩, ⟨0, 0⟩, ⟨0, 0⟩, 1, 1, 1, 14, 0, ⟨0, 0⟩, ⟨0, 0⟩, ⟨0, 0⟩, ⟨0, 0⟩,
       ⟨0, 0⟩, ⟨0, 0⟩, 1, 1, 0, 0, 0⟩
      ⟨⟨⟨0, 0⟩, ⟨0, 1⟩⟩, ⟨0, 0⟩, 1, 0, ⟨0, 0⟩, 0, ⟨0, 0⟩, 0, true⟩
      ⟨⟨⟨0, 0⟩, ⟨0, 1⟩⟩, ⟨0, 0⟩, 1, 0, ⟨8, 0⟩, 0, ⟨0, 0⟩, 0, true⟩).bodyB.c := by
  norm_num [PulleyJoint.solvePositionConstraints, specPulleyClampedSolvePosition,
    Rot.neo, Rot.mulVec2, Vec2.sub, Vec2.add, Vec2.mul, Vec2.cross, Vec2.addMul,
    Vec2.len, Vec2.lengthSquared, Vec2.zeroV, MathClamp, Vec2.mk.injEq]

/-- Witness for claim C5 (amended): on a concrete revolute joint at the
lower limit, the clamped angular error at joint angle 5 stays within
`maxAngularCorrection = 2/45`. -/
theorem claim_C5_amended_witness :
    |RevoluteJoint.spcLimitC ⟨1/200, 1/100, 1/5, 2/45⟩
      ⟨⟨0, 0⟩, ⟨0, 0⟩, 0, ⟨0, 0, 0⟩, 0, 0, 1, 0, 0, true, false,
       ⟨0, 0⟩, ⟨0, 0⟩, ⟨0, 0⟩, ⟨0, 0⟩, 0, 0, 0, 0,
       ⟨⟨0, 0, 0⟩, ⟨0, 0, 0⟩, ⟨0, 0, 0⟩⟩, 0, LimitState.atLowerLimit⟩ 5| ≤ 2/45 := by
  exact claim_C5_amended.2.1 ⟨1/200, 1/100, 1/5, 2/45⟩ _ 5 (by norm_num)

/-- Inverting a guarded mass sum: the `x != 0 ? 1/x : 0` pattern of the
distance joint agrees with "reciprocal when positive, 0 when zero". -/
theorem invGuard_ne (K2 K : ℚ) (h : K2 = K) :
    (0 < K → (if K2 ≠ 0 then 1 / K2 else 0) = 1 / K) ∧
    (K = 0 → (if K2 ≠ 0 then 1 / K2 else 0) = 0) := by
  subst h
  constructor
  · intro hpos
    rw [if_pos (ne_of_gt hpos)]
  · intro hzero
    rw [hzero]
    simp

/-- Inverting a guarded mass sum: the `x > 0 ? 1/x : x` pattern of the
revolute motor mass and the pulley joint agrees with "reciprocal when
positive, 0 when zero". -/
theorem invGuard_pos (K2 K : ℚ) (h : K2 = K) :
    (0 < K → (if K2 > 0 then 1 / K2 else K2) = 1 / K) ∧
    (K = 0 → (if K2 > 0 then 1 / K2 else K2) = 0) := by
  subst h
  constructor
  · intro hpos
    rw [if_pos hpos]
  · intro hzero
    rw [hzero]
    simp


/-- The motor mass stored by the revolute preparation stage is
`invI_A + invI_B` inverted only when positive. -/
theorem rev_prep_motorMass (F : MathFns) (S : Settings)
    (j : RevoluteJoint) (bA bB : BodyState) :
    (RevoluteJoint.ivcPrep F S j bA bB).m_motorMass
      = (if bA.invI + bB.invI > 0 then 1 / (bA.invI + bB.invI) else bA.invI + bB.invI) := rfl

/-- `RevoluteJoint.initVelocityConstraints` stores the motor mass computed
by the preparation stage. -/
theorem rev_ivc_motorMass (F : MathFns) (S : Settings) (step : TimeStep)
    (j : RevoluteJoint) (bA bB : BodyState) :
    (RevoluteJoint.initVelocityConstraints F S step j bA bB).joint.m_motorMass
      = (RevoluteJoint.ivcPrep F S j bA bB).m_motorMass := by
  unfold RevoluteJoint.initVelocityConstraints
  split <;> rfl

/-- Claim C6 (amended): each scalar effective mass stored by
`initVelocityConstraints` is the reciprocal of its own constraint's
Jacobian mass sum when that sum is positive and 0 when the sum is zero —
the inversion is never performed on a zero sum.  For the (hard) distance
joint the sum is the claimed standard rigid-body formula taken along the
computed axis `u`; for the revolute MOTOR mass it is `invI_A + invI_B`
alone; for the pulley joint body B's terms are scaled by `ratio^2`. -/
theorem claim_C6_amended :
    (∀ (F : MathFns) (S : Settings) (step : TimeStep) (j : DistanceJoint) (bA bB : BodyState),
      ¬(0 < j.m_frequencyHz) →
      ∃ rA rB u K,
        rA = Rot.mulVec2 (Rot.neo F bA.a) (Vec2.sub j.m_localAnchorA bA.localCenter) ∧
        rB = Rot.mulVec2 (Rot.neo F bB.a) (Vec2.sub j.m_localAnchorB bB.localCenter) ∧
        u = (if Vec2.len F (Vec2.sub (Vec2.add bB.c rB) (Vec2.add bA.c rA)) > S.linearSlop
          then Vec2.mul (1 / Vec2.len F (Vec2.sub (Vec2.add bB.c rB) (Vec2.add bA.c rA)))
            (Vec2.sub (Vec2.add bB.c rB) (Vec2.add bA.c rA))
          else Vec2.zeroV) ∧
        K = specStandardEffectiveMassSum bA.invMass bB.invMass bA.invI bB.invI rA rB u u ∧
        (0 < K →
          (DistanceJoint.initVelocityConstraints F S step j bA bB).joint.m_mass = 1 / K) ∧
        (K = 0 →
          (DistanceJoint.initVelocityConstraints F S step j bA bB).joint.m_mass = 0)) ∧
    (∀ (F : MathFns) (S : Settings) (step : TimeStep) (j : RevoluteJoint) (bA bB : BodyState),
      (0 < bA.invI + bB.invI →
        (RevoluteJoint.initVelocityConstraints F S step j bA bB).joint.m_motorMass
          = 1 / (bA.invI + bB.invI)) ∧
      (bA.invI + bB.invI = 0 →
        (RevoluteJoint.initVelocityConstraints F S step j bA bB).joint.m_motorMass = 0)) ∧
    (∀ (F : MathFns) (S : Settings) (step : TimeStep) (j : PulleyJoint) (bA bB : BodyState),
      ∃ rA rB uA uB K,
        rA = Rot.mulVec2 (Rot.neo F bA.a) (Vec2.sub j.m_localAnchorA bA.localCenter) ∧
        rB = Rot.mulVec2 (Rot.neo F bB.a) (Vec2.sub j.m_localAnchorB bB.localCenter) ∧
        uA = (if Vec2.len F (Vec2.sub (Vec2.add bA.c rA) j.m_groundAnchorA) > 10 * S.linearSlop
          then Vec2.mul (1 / Vec2.len F (Vec2.sub (Vec2.add bA.c rA) j.m_groundAnchorA))
            (Vec2.sub (Vec2.add bA.c rA) j.m_groundAnchorA)
          else Vec2.zeroV) ∧
        uB = (if Vec2.len F (Vec2.sub (Vec2.add bB.c rB) j.m_groundAnchorB) > 10 * S.linearSlop
          then Vec2.mul (1 / Vec2.len F (Vec2.sub (Vec2.add bB.c rB) j.m_groundAnchorB))
            (Vec2.sub (Vec2.add bB.c rB) j.m_groundAnchorB)
          else Vec2.zeroV) ∧
        K = bA.invMass + bA.invI * Vec2.cross rA uA * Vec2.cross rA uA
          + j.m_ratio * j.m_ratio
            * (bB.invMass + bB.invI * Vec2.cross rB uB * Vec2.cross rB uB) ∧
        (0 < K →
          (PulleyJoint.initVelocityConstraints F S step j bA bB).joint.m_mass = 1 / K) ∧
        (K = 0 →
          (PulleyJoint.initVelocityConstraints F S step j bA bB).joint.m_mass = 0)) := by
  refine ⟨?_, ?_, ?_⟩
  · intro F S step j bA bB hfreq
    refine ⟨_, _, _, _, rfl, rfl, rfl, rfl, ?_, ?_⟩
    · unfold DistanceJoint.initVelocityConstraints DistanceJoint.ivcPrep
      rw [if_neg hfreq]
      by_cases hw : step.warmStarting = true
      · rw [if_pos hw]
        dsimp only
        refine (invGuard_ne _ _ ?_).1
        unfold specStandardEffectiveMassSum
        ring
      · rw [if_neg hw]
        dsimp only
        refine (invGuard_ne _ _ ?_).1
        unfold specStandardEffectiveMassSum
        ring
    · unfold DistanceJoint.initVelocityConstraints DistanceJoint.ivcPrep
      rw [if_neg hfreq]
      by_cases hw : step.warmStarting = true
      · rw [if_pos hw]
        dsimp only
        refine (invGuard_ne _ _ ?_).2
        unfold specStandardEffectiveMassSum
        ring
      · rw [if_neg hw]
        dsimp only
        refine (invGuard_ne _ _ ?_).2
        unfold specStandardEffectiveMassSum
        ring
  · intro F S step j bA bB
    rw [rev_ivc_motorMass, rev_prep_motorMass]
    exact invGuard_pos _ _ rfl
  · intro F S step j bA bB
    refine ⟨_, _, _, _, _, rfl, rfl, rfl, rfl, rfl, ?_, ?_⟩
    · unfold PulleyJoint.initVelocityConstraints PulleyJoint.ivcPrep
      by_cases hw : step.warmStarting = true
      · rw [if_pos hw]
        dsimp only
        refine (invGuard_pos _ _ ?_).1
        ring
      · rw [if_neg hw]
        dsimp only
        refine (invGuard_pos _ _ ?_).1
        ring
    · unfold PulleyJoint.initVelocityConstraints PulleyJoint.ivcPrep
      by_cases hw : step.warmStarting = true
      · rw [if_pos hw]
        dsimp only
        refine (invGuard_pos _ _ ?_).2
        ring
      · rw [if_neg hw]
        dsimp only
        refine (invGuard_pos _ _ ?_).2
        ring

/-- Claim C6, counterexample: a concrete pulley joint with `ratio = 2`, a
fixed body A and a unit-inverse-mass body B stores effective mass
`1/(0 + 2^2 * 1) = 1/4`, not the reciprocal `1` of the claimed standard
rigid-body sum `invMass_A + invMass_B + invI_A*(rA x uA)^2 +
invI_B*(rB x uB)^2 = 1`. -/
theorem claim_C6_counterexample :
    (PulleyJoint.initVelocityConstraints ⟨fun _ => 1, fun _ => 0, fun _ => 0, 0, 3⟩
      ⟨1/200, 1/100, 1/5, 2/45⟩ ⟨1/60, 1, false⟩
      ⟨⟨0, 0⟩, ⟨0, 0⟩, ⟨0, 0⟩, ⟨0, 0⟩, 1, 1, 2, 3, 0, ⟨0, 0⟩, ⟨0, 0⟩, ⟨0, 0⟩, ⟨0, 0⟩,
       ⟨0, 0⟩, ⟨0, 0⟩, 0, 0, 0, 0, 0⟩
      ⟨⟨⟨0, 0⟩, ⟨0, 1⟩⟩, ⟨0, 0⟩, 0, 0, ⟨0, 0⟩, 0, ⟨0, 0⟩, 0, true⟩
      ⟨⟨⟨0, 0⟩, ⟨0, 1⟩⟩, ⟨0, 0⟩, 1, 0, ⟨0, 0⟩, 0, ⟨0, 0⟩, 0, true⟩).joint.m_mass
    ≠ specInvertMassSum (specStandardEffectiveMassSum 0 1 0 0
      (PulleyJoint.initVelocityConstraints ⟨fun _ => 1, fun _ => 0, fun _ => 0, 0, 3⟩
        ⟨1/200, 1/100, 1/5, 2/45⟩ ⟨1/60, 1, false⟩
        ⟨⟨0, 0⟩, ⟨0, 0⟩, ⟨0, 0⟩, ⟨0, 0⟩, 1, 1, 2, 3, 0, ⟨0, 0⟩, ⟨0, 0⟩, ⟨0, 0⟩, ⟨0, 0⟩,
         ⟨0, 0⟩, ⟨0, 0⟩, 0, 0, 0, 0, 0⟩
        ⟨⟨⟨0, 0⟩, ⟨0, 1⟩⟩, ⟨0, 0⟩, 0, 0, ⟨0, 0⟩, 0, ⟨0, 0⟩, 0, true⟩
        ⟨⟨⟨0, 0⟩, ⟨0, 1⟩⟩, ⟨0, 0⟩, 1, 0, ⟨0, 0⟩, 0, ⟨0, 0⟩, 0, true⟩).joint.m_rA
      (PulleyJoint.initVelocityConstraints ⟨fun _ => 1, fun _ => 0, fun _ => 0, 0, 3⟩
        ⟨1/200, 1/100, 1/5, 2/45⟩ ⟨1/60, 1, false⟩
        ⟨⟨0, 0⟩, ⟨0, 0⟩, ⟨0, 0⟩, ⟨0, 0⟩, 1, 1, 2, 3, 0, ⟨0, 0⟩, ⟨0, 0⟩, ⟨0, 0⟩, ⟨0, 0⟩,
         ⟨0, 0⟩, ⟨0, 0⟩, 0, 0, 0, 0, 0⟩
        ⟨⟨⟨0, 0⟩, ⟨0, 1⟩⟩, ⟨0, 0⟩, 0, 0, ⟨0, 0⟩, 0, ⟨0, 0⟩, 0, true⟩
        ⟨⟨⟨0, 0⟩, ⟨0, 1⟩⟩, ⟨0, 0⟩, 1, 0, ⟨0, 0⟩, 0, ⟨0, 0⟩, 0, true⟩).joint.m_rB
      (PulleyJoint.initVelocityConstraints ⟨fun _ => 1, fun _ => 0, fun _ => 0, 0, 3⟩
        ⟨1/200, 1/100, 1/5, 2/45⟩ ⟨1/60, 1, false⟩
        ⟨⟨0, 0⟩, ⟨0, 0⟩, ⟨0, 0⟩, ⟨0, 0⟩, 1, 1, 2, 3, 0, ⟨0, 0⟩, ⟨0, 0⟩, ⟨0, 0⟩, ⟨0, 0⟩,
         ⟨0, 0⟩, ⟨0, 0⟩, 0, 0, 0, 0, 0⟩
        ⟨⟨⟨0, 0⟩, ⟨0, 1⟩⟩, ⟨0, 0⟩, 0, 0, ⟨0, 0⟩, 0, ⟨0, 0⟩, 0, true⟩
        ⟨⟨⟨0, 0⟩, ⟨0, 1⟩⟩, ⟨0, 0⟩, 1, 0, ⟨0, 0⟩, 0, ⟨0, 0⟩, 0, true⟩).joint.m_uA
      (PulleyJoint.initVelocityConstraints ⟨fun _ => 1, fun _ => 0, fun _ => 0, 0, 3⟩
        ⟨1/200, 1/100, 1/5, 2/45⟩ ⟨1/60, 1, false⟩
        ⟨⟨0, 0⟩, ⟨0, 0⟩, ⟨0, 0⟩, ⟨0, 0⟩, 1, 1, 2, 3, 0, ⟨0, 0⟩, ⟨0, 0⟩, ⟨0, 0⟩, ⟨0, 0⟩,
         ⟨0, 0⟩, ⟨0, 0⟩, 0, 0, 0, 0, 0⟩
        ⟨⟨⟨0, 0⟩, ⟨0, 1⟩⟩, ⟨0, 0⟩, 0, 0, ⟨0, 0⟩, 0, ⟨0, 0⟩, 0, true⟩
        ⟨⟨⟨0, 0⟩, ⟨0, 1⟩⟩, ⟨0, 0⟩, 1, 0, ⟨0, 0⟩, 0, ⟨0, 0⟩, 0, true⟩).joint.m_uB) := by
  norm_num [PulleyJoint.initVelocityConstraints, PulleyJoint.ivcPrep,
    specInvertMassSum, specStandardEffectiveMassSum, Rot.neo, Rot.mulVec2,
    Vec2.len, Vec2.lengthSquared, Vec2.zeroV, Vec2.cross, Vec2.sub, Vec2.add,
    Vec2.mul, Vec2.addMul]

/-- Witness for claim C6 (amended): a concrete revolute joint between two
bodies of unit inverse inertia stores motor mass `1/2`. -/
theorem claim_C6_amended_witness :
    (RevoluteJoint.initVelocityConstraints ⟨fun _ => 1, fun _ => 0, fun _ => 0, 0, 3⟩
      ⟨1/200, 1/100, 1/5, 2/45⟩ ⟨1/60, 1, true⟩
      ⟨⟨0, 0⟩, ⟨0, 0⟩, 0, ⟨0, 0, 0⟩, 0, 0, 1, 0, 0, false, false,
       ⟨0, 0⟩, ⟨0, 0⟩, ⟨0, 0⟩, ⟨0, 0⟩, 0, 0, 0, 0,
       ⟨⟨0, 0, 0⟩, ⟨0, 0, 0⟩, ⟨0, 0, 0⟩⟩, 0, LimitState.inactiveLimit⟩
      ⟨⟨⟨0, 0⟩, ⟨0, 1⟩⟩, ⟨0, 0⟩, 1, 1, ⟨0, 0⟩, 0, ⟨0, 0⟩, 0, true⟩
      ⟨⟨⟨0, 0⟩, ⟨0, 1⟩⟩, ⟨0, 0⟩, 1, 1, ⟨0, 0⟩, 0, ⟨0, 0⟩, 0, true⟩).joint.m_motorMass
      = 1/2 := by
  rw [(claim_C6_amended.2.1 ⟨fun _ => 1, fun _ => 0, fun _ => 0, 0, 3⟩
      ⟨1/200, 1/100, 1/5, 2/45⟩ ⟨1/60, 1, true⟩
      ⟨⟨0, 0⟩, ⟨0, 0⟩, 0, ⟨0, 0, 0⟩, 0, 0, 1, 0, 0, false, false,
       ⟨0, 0⟩, ⟨0, 0⟩, ⟨0, 0⟩, ⟨0, 0⟩, 0, 0, 0, 0,
       ⟨⟨0, 0, 0⟩, ⟨0, 0, 0⟩, ⟨0, 0, 0⟩⟩, 0, LimitState.inactiveLimit⟩
      ⟨⟨⟨0, 0⟩, ⟨0, 1⟩⟩, ⟨0, 0⟩, 1, 1, ⟨0, 0⟩, 0, ⟨0, 0⟩, 0, true⟩
      ⟨⟨⟨0, 0⟩, ⟨0, 1⟩⟩, ⟨0, 0⟩, 1, 1, ⟨0, 0⟩, 0, ⟨0, 0⟩, 0, true⟩).1 (by norm_num)]
  norm_num


/-- With the motor disabled the motor stage leaves the angular velocities
and the accumulated motor impulse untouched. -/
theorem RevoluteJoint_motorStage_disabled (step : TimeStep) (j : RevoluteJoint)
    (bA bB : BodyState) (hMot : j.m_enableMotor = false) :
    RevoluteJoint.motorStage step j bA bB = (bA.w, bB.w, j.m_motorImpulse) := by
  unfold RevoluteJoint.motorStage
  rw [if_neg]
  intro hc
  rw [hMot] at hc
  exact Bool.false_ne_true hc.1

/-- Claim C7 (amended): `RevoluteJoint.solveVelocityConstraints` agrees
with the spec's "2x2 point-to-point (plus scalar motor)" description
exactly when the limit state is `equalLimits` (where the full 3x3 solve is
applied, on which the two agree) or when the limit is inactive, disabled or
rotation is fixed; but at the lower limit (shown here for a motor-less
joint) it also performs the full 3x3 solve and applies it in full whenever
the accumulated `z` impulse keeps its sign — not the claimed 2x2 point
solve. -/
theorem claim_C7_amended (step : TimeStep) (j : RevoluteJoint) (bA bB : BodyState) :
    ((j.m_limitState = LimitState.equalLimits ∨
      ¬(j.m_enableLimit = true ∧ j.m_limitState ≠ LimitState.inactiveLimit
        ∧ ¬(j.m_invIA + j.m_invIB = 0))) →
      RevoluteJoint.solveVelocityConstraints step j bA bB
        = specRevolute2x2SolveVelocity step j bA bB) ∧
    (j.m_enableLimit = true → j.m_limitState = LimitState.atLowerLimit →
      ¬(j.m_invIA + j.m_invIB = 0) → j.m_enableMotor = false →
      ∃ impulse0 : Vec3,
        impulse0 = Vec3.neg (Mat33.solve33 j.m_mass
          ⟨(Vec2.subCombine (Vec2.addCombine Vec2.zeroV 1 bB.v 1 (Vec2.crossSV bB.w j.m_rB))
              1 bA.v 1 (Vec2.crossSV bA.w j.m_rA)).x,
           (Vec2.subCombine (Vec2.addCombine Vec2.zeroV 1 bB.v 1 (Vec2.crossSV bB.w j.m_rB))
              1 bA.v 1 (Vec2.crossSV bA.w j.m_rA)).y,
           bB.w - bA.w⟩) ∧
        (¬(j.m_impulse.z + impulse0.z < 0) →
          (RevoluteJoint.solveVelocityConstraints step j bA bB).joint.m_impulse
            = Vec3.add j.m_impulse impulse0 ∧
          (RevoluteJoint.solveVelocityConstraints step j bA bB).bodyA.v
            = Vec2.subMul bA.v j.m_invMassA ⟨impulse0.x, impulse0.y⟩ ∧
          (RevoluteJoint.solveVelocityConstraints step j bA bB).bodyA.w
            = bA.w - j.m_invIA * (Vec2.cross j.m_rA ⟨impulse0.x, impulse0.y⟩ + impulse0.z) ∧
          (RevoluteJoint.solveVelocityConstraints step j bA bB).bodyB.v
            = Vec2.addMul bB.v j.m_invMassB ⟨impulse0.x, impulse0.y⟩ ∧
          (RevoluteJoint.solveVelocityConstraints step j bA bB).bodyB.w
            = bB.w + j.m_invIB * (Vec2.cross j.m_rB ⟨impulse0.x, impulse0.y⟩ + impulse0.z))) := by
  constructor
  · intro h
    unfold RevoluteJoint.solveVelocityConstraints specRevolute2x2SolveVelocity
    dsimp only
    rcases h with hEq | hNot
    · by_cases hC : j.m_enableLimit = true ∧ ¬(j.m_invIA + j.m_invIB = 0)
      · have hca : j.m_enableLimit = true ∧ j.m_limitState ≠ LimitState.inactiveLimit
            ∧ ¬(j.m_invIA + j.m_invIB = 0) := ⟨hC.1, by rw [hEq]; simp, hC.2⟩
        have hcs : j.m_enableLimit = true ∧ j.m_limitState = LimitState.equalLimits
            ∧ ¬(j.m_invIA + j.m_invIB = 0) := ⟨hC.1, hEq, hC.2⟩
        rw [if_pos hca, if_pos hcs, if_pos hEq]
      · have hca : ¬(j.m_enableLimit = true ∧ j.m_limitState ≠ LimitState.inactiveLimit
            ∧ ¬(j.m_invIA + j.m_invIB = 0)) := by
          intro hc
          exact hC ⟨hc.1, hc.2.2⟩
        have hcs : ¬(j.m_enableLimit = true ∧ j.m_limitState = LimitState.equalLimits
            ∧ ¬(j.m_invIA + j.m_invIB = 0)) := by
          intro hc
          exact hC ⟨hc.1, hc.2.2⟩
        rw [if_neg hca, if_neg hcs]
    · have hcs : ¬(j.m_enableLimit = true ∧ j.m_limitState = LimitState.equalLimits
          ∧ ¬(j.m_invIA + j.m_invIB = 0)) := by
        intro hc
        exact hNot ⟨hc.1, by rw [hc.2.1]; simp, hc.2.2⟩
      rw [if_neg hNot, if_neg hcs]
  · intro hEn hSt hFix hMot
    refine ⟨_, rfl, ?_⟩
    intro hSign
    unfold RevoluteJoint.solveVelocityConstraints
    dsimp only
    rw [RevoluteJoint_motorStage_disabled step j bA bB hMot]
    dsimp only
    rw [if_pos (⟨hEn, by rw [hSt]; simp, hFix⟩ :
      j.m_enableLimit = true ∧ j.m_limitState ≠ LimitState.inactiveLimit
        ∧ ¬(j.m_invIA + j.m_invIB = 0))]
    dsimp only
    rw [hSt]
    rw [if_neg (show ¬(LimitState.atLowerLimit = LimitState.equalLimits) by simp),
      if_pos rfl, if_neg hSign]
    exact ⟨rfl, rfl, rfl, rfl, rfl⟩

/-- Claim C7, counterexample: a revolute joint driven into the
`atLowerLimit` state by `initVelocityConstraints` is then solved with the
full 3x3 system (applied in full, since the accumulated `z` impulse keeps
its sign), so its output differs from the spec-claimed
2x2-point-to-point-only solve. -/
theorem claim_C7_counterexample :
    (RevoluteJoint.solveVelocityConstraints ⟨1/60, 1, false⟩
      (RevoluteJoint.initVelocityConstraints ⟨fun _ => 1, fun _ => 0, fun _ => 0, 0, 3⟩
        ⟨1/200, 1/100, 1/5, 2/45⟩ ⟨1/60, 1, false⟩
        ⟨⟨0, 1⟩, ⟨0, 1⟩, 0, ⟨0, 0, 0⟩, 0, 0, 1, 0, 0, true, false,
         ⟨0, 0⟩, ⟨0, 0⟩, ⟨0, 0⟩, ⟨0, 0⟩, 0, 0, 0, 0,
         ⟨⟨0, 0, 0⟩, ⟨0, 0, 0⟩, ⟨0, 0, 0⟩⟩, 0, LimitState.inactiveLimit⟩
        ⟨⟨⟨0, 0⟩, ⟨0, 1⟩⟩, ⟨0, 0⟩, 1, 1, ⟨0, 0⟩, 0, ⟨0, 0⟩, 0, true⟩
        ⟨⟨⟨0, 0⟩, ⟨0, 1⟩⟩, ⟨0, 0⟩, 1, 1, ⟨0, 0⟩, 0, ⟨0, 0⟩, -1, true⟩).joint
      ⟨⟨⟨0, 0⟩, ⟨0, 1⟩⟩, ⟨0, 0⟩, 1, 1, ⟨0, 0⟩, 0, ⟨0, 0⟩, 0, true⟩
      ⟨⟨⟨0, 0⟩, ⟨0, 1⟩⟩, ⟨0, 0⟩, 1, 1, ⟨0, 0⟩, 0, ⟨0, 0⟩, -1, true⟩).bodyA.v
    ≠ (specRevolute2x2SolveVelocity ⟨1/60, 1, false⟩
      (RevoluteJoint.initVelocityConstraints ⟨fun _ => 1, fun _ => 0, fun _ => 0, 0, 3⟩
        ⟨1/200, 1/100, 1/5, 2/45⟩ ⟨1/60, 1, false⟩
        ⟨⟨0, 1⟩, ⟨0, 1⟩, 0, ⟨0, 0, 0⟩, 0, 0, 1, 0, 0, true, false,
         ⟨0, 0⟩, ⟨0, 0⟩, ⟨0, 0⟩, ⟨0, 0⟩, 0, 0, 0, 0,
         ⟨⟨0, 0, 0⟩, ⟨0, 0, 0⟩, ⟨0, 0, 0⟩⟩, 0, LimitState.inactiveLimit⟩
        ⟨⟨⟨0, 0⟩, ⟨0, 1⟩⟩, ⟨0, 0⟩, 1, 1, ⟨0, 0⟩, 0, ⟨0, 0⟩, 0, true⟩
        ⟨⟨⟨0, 0⟩, ⟨0, 1⟩⟩, ⟨0, 0⟩, 1, 1, ⟨0, 0⟩, 0, ⟨0, 0⟩, -1, true⟩).joint
      ⟨⟨⟨0, 0⟩, ⟨0, 1⟩⟩, ⟨0, 0⟩, 1, 1, ⟨0, 0⟩, 0, ⟨0, 0⟩, 0, true⟩
      ⟨⟨⟨0, 0⟩, ⟨0, 1⟩⟩, ⟨0, 0⟩, 1, 1, ⟨0, 0⟩, 0, ⟨0, 0⟩, -1, true⟩).bodyA.v := by
  norm_num [RevoluteJoint.solveVelocityConstraints, specRevolute2x2SolveVelocity,
    RevoluteJoint.motorStage, RevoluteJoint.initVelocityConstraints,
    RevoluteJoint.ivcPrep, Mat33.solve33, Mat33.solve22, Vec3.neg, Vec3.add,
    Vec3.mul, Vec3.dot, Vec3.cross, Vec3.zeroV, Rot.neo, Rot.mulVec2, Vec2.sub,
    Vec2.add, Vec2.mul, Vec2.cross, Vec2.crossSV, Vec2.addMul, Vec2.subMul,
    Vec2.addCombine, Vec2.subCombine, Vec2.combine, Vec2.neg, Vec2.zeroV,
    MathClamp, abs_one, Vec2.mk.injEq]
  rw [if_neg (show ¬(LimitState.atLowerLimit = LimitState.inactiveLimit) by simp)]
  simp [Vec2.mk.injEq]

/-- Witness for claim C7 (amended): on a concrete revolute joint with the
limit disabled, the embedded solver and the spec's 2x2 description agree
exactly. -/
theorem claim_C7_amended_witness :
    RevoluteJoint.solveVelocityConstraints ⟨1/60, 1, true⟩
      ⟨⟨0, 1⟩, ⟨0, 1⟩, 0, ⟨0, 0, 0⟩, 0, 0, 1, 0, 0, false, false,
       ⟨0, 1⟩, ⟨0, 1⟩, ⟨0, 0⟩, ⟨0, 0⟩, 1, 1, 1, 1,
       ⟨⟨4, 0, -2⟩, ⟨0, 2, 0⟩, ⟨-2, 0, 2⟩⟩, 1/2, LimitState.inactiveLimit⟩
      ⟨⟨⟨0, 0⟩, ⟨0, 1⟩⟩, ⟨0, 0⟩, 1, 1, ⟨0, 0⟩, 0, ⟨0, 0⟩, 0, true⟩
      ⟨⟨⟨0, 0⟩, ⟨0, 1⟩⟩, ⟨0, 0⟩, 1, 1, ⟨0, 0⟩, 0, ⟨0, 0⟩, -1, true⟩
    = specRevolute2x2SolveVelocity ⟨1/60, 1, true⟩
      ⟨⟨0, 1⟩, ⟨0, 1⟩, 0, ⟨0, 0, 0⟩, 0, 0, 1, 0, 0, false, false,
       ⟨0, 1⟩, ⟨0, 1⟩, ⟨0, 0⟩, ⟨0, 0⟩, 1, 1, 1, 1,
       ⟨⟨4, 0, -2⟩, ⟨0, 2, 0⟩, ⟨-2, 0, 2⟩⟩, 1/2, LimitState.inactiveLimit⟩
      ⟨⟨⟨0, 0⟩, ⟨0, 1⟩⟩, ⟨0, 0⟩, 1, 1, ⟨0, 0⟩, 0, ⟨0, 0⟩, 0, true⟩
      ⟨⟨⟨0, 0⟩, ⟨0, 1⟩⟩, ⟨0, 0⟩, 1, 1, ⟨0, 0⟩, 0, ⟨0, 0⟩, -1, true⟩ := by
  exact (claim_C7_amended _ _ _ _).1 (Or.inr (by simp))
